import Mathlib

/-!
Verification development for the chenchen personal-finance backend.

The schemas under src/api/schemas are pydantic v2 models.  The embedding
reproduces the pydantic validation semantics these schemas rely on:

* fields are validated in declaration order;
* a custom field validator runs only when the field is present in the
  request body (an omitted field takes its declared default and skips
  both its constraints and its validators);
* inside a validator, info.data holds the values of the fields declared
  BEFORE the current one that validated successfully (fields filled from
  their defaults included); the current field is never in info.data;
* a ValueError raised by a validator is recorded as a validation error
  for that field and stops the remaining validators of that field, while
  validation of the later fields continues (errors are aggregated);
* any other exception (AttributeError, TypeError) aborts the whole
  validation and propagates to the caller; it is modelled as a distinct
  crash outcome, not as a validation error.

Monetary values (python Decimal) are modelled as Rat: Decimal comparison
and addition are exact, so Rat is a faithful carrier for every operation
the schemas perform.  Dates and datetimes are opaque Int stamps: the code
never inspects them.  Strings are Lean String; the enum literals and the
checked formats are ASCII, where python upper agrees with the ASCII
uppercase map pyUpper defined below.
-/

namespace Chenchen

/-- Presence of a nullable (Optional) field in a request body: the field
can be absent, explicitly null, or carry a value.  Pydantic only runs
constraints and validators of a field that is present (null or value). -/
inductive Presence (α : Type) where
  | absent : Presence α
  | null : Presence α
  | given : α → Presence α
deriving DecidableEq

namespace Presence

/-- The value stored for the field once validated: absent and null both
become python None. -/
def toOption : Presence α → Option α
  | .absent => none
  | .null => none
  | .given a => some a

/-- True when the field appears in the request body, so its validators run. -/
def isProvided : Presence α → Bool
  | .absent => false
  | _ => true

end Presence

/-- Reading field f from info.data when f is an Optional field: the outer
layer is membership in info.data, the inner layer is the stored Optional
value.  A field missing from info.data and a field stored as None both
read back as python None. -/
def dget : Option (Option α) → Option α := Option.join

/-- ASCII hexadecimal digit, the character class 0-9A-Fa-f. -/
def isHexDigitChar (c : Char) : Bool :=
  c.isDigit || (decide (97 ≤ c.toNat) && decide (c.toNat ≤ 102))
    || (decide (65 ≤ c.toNat) && decide (c.toNat ≤ 70))

/-- Matcher for the pattern of a hex color: a hash sign followed by
exactly six hex digits.  It models re.match with that anchored pattern
(up to the CPython quirk that a dollar anchor also accepts one trailing
newline, which no claim touches). -/
def matchesHexColor (s : String) : Bool :=
  match s.toList with
  | c :: rest => c = '#' && rest.length = 6 && rest.all isHexDigitChar
  | [] => false

/-- ASCII uppercase letter A-Z. -/
def isUpperAlphaChar (c : Char) : Bool :=
  decide (65 ≤ c.toNat) && decide (c.toNat ≤ 90)

/-- Matcher for the anchored pattern of exactly three uppercase ASCII
letters, used by the moneda fields. -/
def matchesIso3 (s : String) : Bool :=
  s.length = 3 && s.toList.all isUpperAlphaChar

/-- Python truthiness of an Optional string read from info.data:
None and the empty string are falsy. -/
def strFalsy : Option String → Bool
  | none => true
  | some s => s.isEmpty

/-- Python upper() on one character: for the ASCII text the schemas use,
a lowercase letter is shifted to its uppercase form and every other
character is unchanged. -/
def pyUpperChar (c : Char) : Char :=
  if 97 ≤ c.toNat ∧ c.toNat ≤ 122 then Char.ofNat (c.toNat - 32) else c

/-- Python upper() on a string, character by character. -/
def pyUpper (s : String) : String := String.mk (s.data.map pyUpperChar)

/-- Python len(v.strip()) == 0: true when every character of the string
is whitespace (so stripping leaves nothing). -/
def pyStripEmpty (s : String) : Bool := s.data.all Char.isWhitespace

/-- Applying one entry of model_dump(exclude_unset=True) to a column that
the table declares NOT NULL; the null arm is unreachable under the
not-null guard of the caller, which surfaces it as a database error. -/
def applyReq (p : Presence α) (old : α) : α :=
  match p with
  | .given v => v
  | _ => old

/-- Applying one entry of model_dump(exclude_unset=True) to a nullable
column: an omitted field keeps the stored value, an explicit null clears
it, a value replaces it. -/
def applyOpt (p : Presence α) (old : Option α) : Option α :=
  match p with
  | .absent => old
  | .null => none
  | .given v => some v

/-- Mapping a transformation over a present value. -/
def Presence.map (f : α → β) : Presence α → Presence β
  | .absent => .absent
  | .null => .null
  | .given a => .given (f a)

/-- Failure of a database commit. -/
inductive DbError where
  | notNullViolation : DbError
deriving DecidableEq

namespace Transaccion

/-- Request body for TransaccionCreate (src/api/schemas/transaccion.py,
TransaccionBase).  Required fields (usuario_id, fecha, tipo, monto) are
carried directly: a body omitting one of them is rejected by pydantic
before any custom validator runs and is outside this type. -/
structure CreateInput where
  usuario_id : Int
  cuenta_origen_id : Presence Int
  cuenta_destino_id : Presence Int
  categoria_id : Presence Int
  compromiso_recurrente_id : Presence Int
  fecha : Int
  tipo : String
  monto : Rat
  descripcion : Presence String
  referencia : Presence String
deriving DecidableEq

/-- The validated TransaccionCreate model, fields as they are stored on
the schema instance after validation. -/
structure Model where
  usuario_id : Int
  cuenta_origen_id : Option Int
  cuenta_destino_id : Option Int
  categoria_id : Option Int
  compromiso_recurrente_id : Option Int
  fecha : Int
  tipo : String
  monto : Rat
  descripcion : Option String
  referencia : Option String
deriving DecidableEq

/-- Closed value set of Transaccion.tipo (validar_tipo). -/
def tiposValidos : List String :=
  [("INGRESO"), ("GASTO"), ("TRANSFERENCIA"), ("AJUSTE")]

/-- validar_tipo: the literal value must belong to the set; no case
normalization is applied. -/
def validar_tipo (v : String) : List String :=
  if v ∈ tiposValidos then [] else [("tipo.invalido")]

/-- validar_cuentas: for tipo TRANSFERENCIA (read from info.data) the
account field must not be null. -/
def validar_cuentas (fieldName : String) (v : Option Int)
    (tipoData : Option String) : List String :=
  if tipoData = some ("TRANSFERENCIA") then
    if fieldName = ("cuenta_origen_id") ∧ v = none then
      [("cuenta_origen_id.transferencia")]
    else if fieldName = ("cuenta_destino_id") ∧ v = none then
      [("cuenta_destino_id.transferencia")]
    else []
  else []

/-- validar_cuentas_diferentes: reads both accounts from info.data (never
from the value under validation) and rejects when both are present and
equal. -/
def validar_cuentas_diferentes (origenData destinoData : Option Int) :
    List String :=
  match origenData, destinoData with
  | some a, some b => if a = b then [("cuentas.iguales")] else []
  | _, _ => []

/-- validar_al_menos_una_cuenta: reads both accounts from info.data and
rejects when both read back as None. -/
def validar_al_menos_una_cuenta (origenData destinoData : Option Int) :
    List String :=
  if origenData = none ∧ destinoData = none then
    [("cuentas.al_menos_una")]
  else []

/-- The three validators attached to cuenta_origen_id and
cuenta_destino_id, run in definition order; the first ValueError stops
the chain for that field. -/
def runCuentaFieldValidators (fieldName : String) (v : Option Int)
    (tipoData : Option String) (origenData destinoData : Option Int) :
    List String :=
  let e1 := validar_cuentas fieldName v tipoData
  if e1 ≠ [] then e1
  else
    let e2 := validar_cuentas_diferentes origenData destinoData
    if e2 ≠ [] then e2
    else validar_al_menos_una_cuenta origenData destinoData

/-- validar_monto_positivo. -/
def validar_monto_positivo (v : Rat) : List String :=
  if v ≤ 0 then [("monto.no_positivo")] else []

/-- Errors of field usuario_id: the Field constraint gt 0. -/
def eUsuario (i : CreateInput) : List String :=
  if i.usuario_id > 0 then [] else [("usuario_id.gt")]

/-- Errors of field cuenta_origen_id.  Declared second: at this point
info.data holds only usuario_id, so tipo, cuenta_origen_id and
cuenta_destino_id all read back as None. -/
def eCuentaOrigen (i : CreateInput) : List String :=
  match i.cuenta_origen_id with
  | .absent => []
  | .null => runCuentaFieldValidators ("cuenta_origen_id") none none none none
  | .given v =>
    if v > 0 then
      runCuentaFieldValidators ("cuenta_origen_id") (some v) none none none
    else [("cuenta_origen_id.gt")]

/-- The info.data entry for cuenta_origen_id after that field was
processed: its default None when absent, its value when provided and
accepted, missing when provided and rejected. -/
def dCuentaOrigen (i : CreateInput) : Option (Option Int) :=
  match i.cuenta_origen_id with
  | .absent => some none
  | .null =>
    if runCuentaFieldValidators ("cuenta_origen_id") none none none none = []
    then some none else none
  | .given v =>
    if v > 0 ∧
        runCuentaFieldValidators ("cuenta_origen_id") (some v) none none none = []
    then some (some v) else none

/-- Errors of field cuenta_destino_id.  Declared third: info.data can
hold cuenta_origen_id by now, while tipo and cuenta_destino_id itself
still read back as None. -/
def eCuentaDestino (i : CreateInput) : List String :=
  match i.cuenta_destino_id with
  | .absent => []
  | .null =>
    runCuentaFieldValidators ("cuenta_destino_id") none none
      (dget (dCuentaOrigen i)) none
  | .given v =>
    if v > 0 then
      runCuentaFieldValidators ("cuenta_destino_id") (some v) none
        (dget (dCuentaOrigen i)) none
    else [("cuenta_destino_id.gt")]

/-- Errors of field categoria_id: the Field constraint gt 0 on a provided
value. -/
def eCategoria (i : CreateInput) : List String :=
  match i.categoria_id with
  | .given v => if v > 0 then [] else [("categoria_id.gt")]
  | _ => []

/-- Errors of field compromiso_recurrente_id: the Field constraint gt 0. -/
def eCompromiso (i : CreateInput) : List String :=
  match i.compromiso_recurrente_id with
  | .given v => if v > 0 then [] else [("compromiso_recurrente_id.gt")]
  | _ => []

/-- Errors of field tipo: validar_tipo. -/
def eTipo (i : CreateInput) : List String := validar_tipo i.tipo

/-- Errors of field monto: the Field constraint gt 0, then
validar_monto_positivo. -/
def eMonto (i : CreateInput) : List String :=
  if i.monto > 0 then validar_monto_positivo i.monto else [("monto.gt")]

/-- Errors of field referencia: the Field constraint max_length 100. -/
def eReferencia (i : CreateInput) : List String :=
  match i.referencia with
  | .given s => if s.length ≤ 100 then [] else [("referencia.max_length")]
  | _ => []

/-- All validation errors of a TransaccionCreate body, aggregated in
field declaration order. -/
def allErrors (i : CreateInput) : List String :=
  eUsuario i ++ eCuentaOrigen i ++ eCuentaDestino i ++
    eCategoria i ++ eCompromiso i ++ eTipo i ++ eMonto i ++ eReferencia i

/-- Validation of a TransaccionCreate body; the accepted model carries
the values unchanged (none of these validators transforms its value). -/
def validate (i : CreateInput) : Except (List String) Model :=
  if allErrors i = [] then
    .ok { usuario_id := i.usuario_id,
          cuenta_origen_id := i.cuenta_origen_id.toOption,
          cuenta_destino_id := i.cuenta_destino_id.toOption,
          categoria_id := i.categoria_id.toOption,
          compromiso_recurrente_id := i.compromiso_recurrente_id.toOption,
          fecha := i.fecha, tipo := i.tipo, monto := i.monto,
          descripcion := i.descripcion.toOption,
          referencia := i.referencia.toOption }
  else .error (allErrors i)

/-- A transfer request that supplies no account at all. -/
def transferenciaSinCuentas : CreateInput :=
  { usuario_id := 1, cuenta_origen_id := .absent, cuenta_destino_id := .absent,
    categoria_id := .absent, compromiso_recurrente_id := .absent,
    fecha := 0, tipo := ("TRANSFERENCIA"), monto := 10,
    descripcion := .absent, referencia := .absent }

/-- An income request that correctly supplies a destination account. -/
def ingresoConDestino : CreateInput :=
  { usuario_id := 1, cuenta_origen_id := .absent,
    cuenta_destino_id := .given 5,
    categoria_id := .absent, compromiso_recurrente_id := .absent,
    fecha := 0, tipo := ("INGRESO"), monto := 10,
    descripcion := .absent, referencia := .absent }

/-- An income request with tipo written in lowercase. -/
def ingresoMinusculas : CreateInput :=
  { usuario_id := 1, cuenta_origen_id := .absent, cuenta_destino_id := .absent,
    categoria_id := .absent, compromiso_recurrente_id := .absent,
    fecha := 0, tipo := ("ingreso"), monto := 10,
    descripcion := .absent, referencia := .absent }

end Transaccion

namespace Deuda

/-- Request body for DeudaCreate (src/api/schemas/deuda.py, DeudaBase).
Required fields are carried directly.  cuotas_pagadas, estado, prioridad
and color_hex are non-Optional fields with a default: they may be omitted
(Option, none meaning omitted) but an explicit null is a type error
handled by pydantic before any validator and outside this type. -/
structure CreateInput where
  usuario_id : Int
  cuenta_id : Presence Int
  subcuenta_id : Presence Int
  tipo : String
  acreedor : Presence String
  deudor : Presence String
  descripcion : Presence String
  saldo_inicial : Rat
  saldo_actual : Rat
  monto_cuota : Presence Rat
  frecuencia_pago : Presence String
  dia_pago : Presence Int
  tasa_interes : Presence Rat
  numero_cuotas : Presence Int
  cuotas_pagadas : Option Int
  fecha_inicio : Int
  fecha_vencimiento : Presence Int
  proximo_pago : Presence Int
  estado : Option String
  prioridad : Option String
  color_hex : Option String
  icono : Presence String
deriving DecidableEq

/-- The validated DeudaCreate model. -/
structure Model where
  usuario_id : Int
  cuenta_id : Option Int
  subcuenta_id : Option Int
  tipo : String
  acreedor : Option String
  deudor : Option String
  descripcion : Option String
  saldo_inicial : Rat
  saldo_actual : Rat
  monto_cuota : Option Rat
  frecuencia_pago : Option String
  dia_pago : Option Int
  tasa_interes : Option Rat
  numero_cuotas : Option Int
  cuotas_pagadas : Int
  fecha_inicio : Int
  fecha_vencimiento : Option Int
  proximo_pago : Option Int
  estado : String
  prioridad : String
  color_hex : String
  icono : Option String
deriving DecidableEq

/-- Closed value set of Deuda.tipo. -/
def tiposValidos : List String :=
  [("TARJETA"), ("PRESTAMO"), ("HIPOTECA"), ("AUTO"), ("POR_PAGAR"),
   ("POR_COBRAR"), ("OTRO")]

/-- validar_tipo_deuda: accepts when the uppercased value is in the set
and stores the uppercased value. -/
def validar_tipo_deuda (v : String) : Except (List String) String :=
  if pyUpper v ∈ tiposValidos then .ok (pyUpper v)
  else .error [("tipo.invalido")]

/-- Closed value set of Deuda.estado. -/
def estadosValidos : List String :=
  [("ACTIVA"), ("PAGADA"), ("VENCIDA"), ("REFINANCIADA"), ("CANCELADA")]

/-- validar_estado: uppercases and checks membership. -/
def validar_estado (v : String) : Except (List String) String :=
  if pyUpper v ∈ estadosValidos then .ok (pyUpper v)
  else .error [("estado.invalido")]

/-- Closed value set of Deuda.prioridad. -/
def prioridadesValidas : List String := [("ALTA"), ("MEDIA"), ("BAJA")]

/-- validar_prioridad: uppercases and checks membership. -/
def validar_prioridad (v : String) : Except (List String) String :=
  if pyUpper v ∈ prioridadesValidas then .ok (pyUpper v)
  else .error [("prioridad.invalida")]

/-- Closed value set of Deuda.frecuencia_pago. -/
def frecuenciasValidas : List String :=
  [("SEMANAL"), ("QUINCENAL"), ("MENSUAL"), ("BIMESTRAL"), ("TRIMESTRAL"),
   ("SEMESTRAL"), ("ANUAL")]

/-- validar_frecuencia_pago: None passes through; otherwise uppercase and
check membership. -/
def validar_frecuencia_pago (v : Option String) :
    Except (List String) (Option String) :=
  match v with
  | none => .ok none
  | some s =>
    if pyUpper s ∈ frecuenciasValidas then .ok (some (pyUpper s))
    else .error [("frecuencia_pago.invalida")]

/-- validar_saldo_inicial: the initial balance must not be 0. -/
def validar_saldo_inicial (v : Rat) : List String :=
  if v = 0 then [("saldo_inicial.cero")] else []

/-- validar_saldo_actual: reads tipo (defaulting to the empty string,
then uppercased) and saldo_inicial from info.data.  For POR_COBRAR the
current balance must be at most 0 and, when saldo_inicial is truthy (a
nonzero Decimal), not below it; for every other tipo it must be at least
0 and, when saldo_inicial is truthy, not above it. -/
def validar_saldo_actual (v : Rat) (tipoData : Option String)
    (siData : Option Rat) : List String :=
  let tipo := pyUpper (tipoData.getD (""))
  if tipo = ("POR_COBRAR") then
    if v > 0 then [("saldo_actual.positivo")]
    else
      match siData with
      | some si => if si ≠ 0 ∧ v < si then [("saldo_actual.menor_que_inicial")] else []
      | none => []
  else
    if v < 0 then [("saldo_actual.negativo")]
    else
      match siData with
      | some si => if si ≠ 0 ∧ v > si then [("saldo_actual.mayor_que_inicial")] else []
      | none => []

/-- validar_cuotas_pagadas: reads numero_cuotas from info.data and, when
it is truthy (a nonzero int), requires the paid count not to exceed it. -/
def validar_cuotas_pagadas (v : Int) (numeroData : Option Int) :
    List String :=
  match numeroData with
  | some n => if n ≠ 0 ∧ v > n then [("cuotas_pagadas.exceso")] else []
  | none => []

/-- validar_color_hex: anchored hex-color match, stores the uppercased
value. -/
def validar_color_hex (v : String) : Except (List String) String :=
  if matchesHexColor v then .ok (pyUpper v)
  else .error [("color_hex.invalido")]

/-- validar_acreedor_deudor: the source compares cls dunder name with the
field names acreedor and deudor, but cls is the model class (named
DeudaCreate or DeudaUpdate), so neither branch can fire; the validator is
reproduced as written, clsName being that class name.  The value under
validation is never consulted: only info.data is. -/
def validar_acreedor_deudor (clsName : String) (tipoData : Option String)
    (acreedorData deudorData : Option String) : List String :=
  let tipo := pyUpper (tipoData.getD (""))
  if tipo ∈ [("TARJETA"), ("PRESTAMO"), ("HIPOTECA"), ("AUTO"), ("POR_PAGAR")] then
    if strFalsy acreedorData ∧ clsName = ("acreedor") then
      [("acreedor.obligatorio")]
    else []
  else if tipo = ("POR_COBRAR") then
    if strFalsy deudorData ∧ clsName = ("deudor") then
      [("deudor.obligatorio")]
    else []
  else []

/-- Errors of field tipo (fourth field; nothing before it has checks). -/
def eTipo (i : CreateInput) : List String :=
  match validar_tipo_deuda i.tipo with
  | .ok _ => []
  | .error e => e

/-- The info.data entry for tipo after it was processed: the uppercased
value when valid, missing when rejected. -/
def dTipo (i : CreateInput) : Option String := (validar_tipo_deuda i.tipo).toOption

/-- Errors of field acreedor: Field constraint max_length 150, then
validar_acreedor_deudor; at that point info.data knows tipo but neither
acreedor (the current field) nor deudor (declared later). -/
def eAcreedor (i : CreateInput) : List String :=
  match i.acreedor with
  | .absent => []
  | .null => validar_acreedor_deudor ("DeudaCreate") (dTipo i) none none
  | .given s =>
    if s.length ≤ 150 then
      validar_acreedor_deudor ("DeudaCreate") (dTipo i) none none
    else [("acreedor.max_length")]

/-- The info.data entry for acreedor after it was processed. -/
def dAcreedor (i : CreateInput) : Option (Option String) :=
  match i.acreedor with
  | .absent => some none
  | .null =>
    if validar_acreedor_deudor ("DeudaCreate") (dTipo i) none none = [] then
      some none
    else none
  | .given s =>
    if s.length ≤ 150 ∧
        validar_acreedor_deudor ("DeudaCreate") (dTipo i) none none = [] then
      some (some s)
    else none

/-- Errors of field deudor: by now info.data can also hold acreedor. -/
def eDeudor (i : CreateInput) : List String :=
  match i.deudor with
  | .absent => []
  | .null =>
    validar_acreedor_deudor ("DeudaCreate") (dTipo i) (dget (dAcreedor i)) none
  | .given s =>
    if s.length ≤ 150 then
      validar_acreedor_deudor ("DeudaCreate") (dTipo i) (dget (dAcreedor i)) none
    else [("deudor.max_length")]

/-- Errors of field saldo_inicial. -/
def eSaldoInicial (i : CreateInput) : List String :=
  validar_saldo_inicial i.saldo_inicial

/-- The info.data entry for saldo_inicial. -/
def dSaldoInicial (i : CreateInput) : Option Rat :=
  if validar_saldo_inicial i.saldo_inicial = [] then some i.saldo_inicial
  else none

/-- Errors of field saldo_actual, reading tipo and saldo_inicial from
info.data. -/
def eSaldoActual (i : CreateInput) : List String :=
  validar_saldo_actual i.saldo_actual (dTipo i) (dSaldoInicial i)

/-- Errors of field frecuencia_pago. -/
def eFrecuencia (i : CreateInput) : List String :=
  match i.frecuencia_pago with
  | .absent => []
  | .null =>
    match validar_frecuencia_pago none with
    | .ok _ => []
    | .error e => e
  | .given s =>
    match validar_frecuencia_pago (some s) with
    | .ok _ => []
    | .error e => e

/-- Errors of field dia_pago: Field constraints ge 1 le 31. -/
def eDiaPago (i : CreateInput) : List String :=
  match i.dia_pago with
  | .given v => if 1 ≤ v ∧ v ≤ 31 then [] else [("dia_pago.rango")]
  | _ => []

/-- Errors of field tasa_interes: Field constraints ge 0 le 100. -/
def eTasaInteres (i : CreateInput) : List String :=
  match i.tasa_interes with
  | .given v => if 0 ≤ v ∧ v ≤ 100 then [] else [("tasa_interes.rango")]
  | _ => []

/-- Errors of field numero_cuotas: Field constraint gt 0. -/
def eNumeroCuotas (i : CreateInput) : List String :=
  match i.numero_cuotas with
  | .given v => if v > 0 then [] else [("numero_cuotas.gt")]
  | _ => []

/-- The info.data entry for numero_cuotas. -/
def dNumeroCuotas (i : CreateInput) : Option (Option Int) :=
  match i.numero_cuotas with
  | .absent => some none
  | .null => some none
  | .given v => if v > 0 then some (some v) else none

/-- Errors of field cuotas_pagadas: skipped when omitted (default 0);
otherwise Field constraint ge 0, then validar_cuotas_pagadas. -/
def eCuotasPagadas (i : CreateInput) : List String :=
  match i.cuotas_pagadas with
  | none => []
  | some v =>
    if 0 ≤ v then validar_cuotas_pagadas v (dget (dNumeroCuotas i))
    else [("cuotas_pagadas.ge")]

/-- Errors of field estado: skipped when omitted (default ACTIVA). -/
def eEstado (i : CreateInput) : List String :=
  match i.estado with
  | none => []
  | some s =>
    match validar_estado s with
    | .ok _ => []
    | .error e => e

/-- Errors of field prioridad: skipped when omitted (default MEDIA). -/
def ePrioridad (i : CreateInput) : List String :=
  match i.prioridad with
  | none => []
  | some s =>
    match validar_prioridad s with
    | .ok _ => []
    | .error e => e

/-- Errors of field color_hex: skipped when omitted. -/
def eColorHex (i : CreateInput) : List String :=
  match i.color_hex with
  | none => []
  | some s =>
    match validar_color_hex s with
    | .ok _ => []
    | .error e => e

/-- Errors of field icono: Field constraint max_length 50. -/
def eIcono (i : CreateInput) : List String :=
  match i.icono with
  | .given s => if s.length ≤ 50 then [] else [("icono.max_length")]
  | _ => []

/-- All validation errors of a DeudaCreate body, aggregated in field
declaration order (the fields without checks contribute nothing). -/
def allErrors (i : CreateInput) : List String :=
  eTipo i ++ eAcreedor i ++ eDeudor i ++ eSaldoInicial i ++
    eSaldoActual i ++ eFrecuencia i ++ eDiaPago i ++ eTasaInteres i ++
    eNumeroCuotas i ++ eCuotasPagadas i ++ eEstado i ++ ePrioridad i ++
    eColorHex i ++ eIcono i

/-- Validation of a DeudaCreate body; the accepted model stores the
transformed values (tipo, estado, prioridad, frecuencia_pago and
color_hex uppercased when they were provided, the declared defaults when
omitted). -/
def validate (i : CreateInput) : Except (List String) Model :=
  if allErrors i = [] then
    .ok { usuario_id := i.usuario_id,
          cuenta_id := i.cuenta_id.toOption,
          subcuenta_id := i.subcuenta_id.toOption,
          tipo := (dTipo i).getD (""),
          acreedor := i.acreedor.toOption,
          deudor := i.deudor.toOption,
          descripcion := i.descripcion.toOption,
          saldo_inicial := i.saldo_inicial,
          saldo_actual := i.saldo_actual,
          monto_cuota := i.monto_cuota.toOption,
          frecuencia_pago :=
            match i.frecuencia_pago with
            | .given s => some (pyUpper s)
            | _ => none,
          dia_pago := i.dia_pago.toOption,
          tasa_interes := i.tasa_interes.toOption,
          numero_cuotas := i.numero_cuotas.toOption,
          cuotas_pagadas := i.cuotas_pagadas.getD 0,
          fecha_inicio := i.fecha_inicio,
          fecha_vencimiento := i.fecha_vencimiento.toOption,
          proximo_pago := i.proximo_pago.toOption,
          estado :=
            match i.estado with
            | none => ("ACTIVA")
            | some s => pyUpper s,
          prioridad :=
            match i.prioridad with
            | none => ("MEDIA")
            | some s => pyUpper s,
          color_hex :=
            match i.color_hex with
            | none => ("#EF4444")
            | some s => pyUpper s,
          icono := i.icono.toOption }
  else .error (allErrors i)

/-- The receivable of the specification scenario: saldo_inicial -500,
saldo_actual -500, deudor Carlos. -/
def porCobrarCarlos : CreateInput :=
  { usuario_id := 1, cuenta_id := .absent, subcuenta_id := .absent,
    tipo := ("POR_COBRAR"), acreedor := .absent, deudor := .given ("Carlos"),
    descripcion := .absent, saldo_inicial := -500, saldo_actual := -500,
    monto_cuota := .absent, frecuencia_pago := .absent, dia_pago := .absent,
    tasa_interes := .absent, numero_cuotas := .absent, cuotas_pagadas := none,
    fecha_inicio := 0, fecha_vencimiento := .absent, proximo_pago := .absent,
    estado := none, prioridad := none, color_hex := none, icono := .absent }

end Deuda

namespace Cuenta

/-- Request body for CuentaCreate (src/api/schemas/cuenta.py: CuentaBase
plus usuario_id and saldo_inicial).  moneda, activa, incluir_en_total,
color_hex and orden_mostrar are non-Optional fields with a default: they
may be omitted (none) but an explicit null is a type error handled by
pydantic before any validator and outside this type.  saldo_inicial is
Optional with default 0.00, so it admits all three presences. -/
structure CreateInput where
  nombre : String
  tipo_cuenta : String
  institucion : Presence String
  numero_cuenta : Presence String
  moneda : Option String
  limite_credito : Presence Rat
  dia_corte : Presence Int
  dia_pago : Presence Int
  tasa_interes : Presence Rat
  activa : Option Bool
  incluir_en_total : Option Bool
  color_hex : Option String
  icono : Presence String
  orden_mostrar : Option Int
  descripcion : Presence String
  notas : Presence String
  usuario_id : Int
  saldo_inicial : Presence Rat
deriving DecidableEq

/-- The validated CuentaCreate model. -/
structure CreateModel where
  nombre : String
  tipo_cuenta : String
  institucion : Option String
  numero_cuenta : Option String
  moneda : String
  limite_credito : Option Rat
  dia_corte : Option Int
  dia_pago : Option Int
  tasa_interes : Option Rat
  activa : Bool
  incluir_en_total : Bool
  color_hex : String
  icono : Option String
  orden_mostrar : Int
  descripcion : Option String
  notas : Option String
  usuario_id : Int
  saldo_inicial : Option Rat
deriving DecidableEq

/-- Closed value set of Cuenta.tipo_cuenta. -/
def tiposValidos : List String :=
  [("EFECTIVO"), ("CUENTA_CORRIENTE"), ("CUENTA_AHORRO"), ("CUENTA_NOMINA"),
   ("TARJETA_CREDITO"), ("TARJETA_DEBITO"), ("INVERSION"), ("PRESTAMO"),
   ("WALLET_DIGITAL"), ("CRIPTOMONEDA"), ("OTRO")]

/-- validar_tipo_cuenta: a non-None value must belong to the set
literally; no case normalization is applied. -/
def validar_tipo_cuenta (v : Option String) : List String :=
  match v with
  | none => []
  | some s => if s ∈ tiposValidos then [] else [("tipo_cuenta.invalido")]

/-- validar_nombre_no_vacio: a non-None value must not strip to the
empty string. -/
def validar_nombre_no_vacio (v : Option String) : List String :=
  match v with
  | none => []
  | some s => if pyStripEmpty s then [("nombre.vacio")] else []

/-- validar_moneda: a non-None value must be three characters, all
uppercase letters (python isupper and isalpha, on the ASCII codes the
API uses). -/
def validar_moneda (v : Option String) : List String :=
  match v with
  | none => []
  | some s =>
    if s.length = 3 ∧ s.data.all isUpperAlphaChar then []
    else [("moneda.invalida")]

/-- validar_limite_credito: reads tipo_cuenta from info.data; a credit
card requires a non-None, nonnegative limit, and a limit may only be set
when tipo_cuenta is known to be some other type. -/
def validar_limite_credito (v : Option Rat) (tipoData : Option String) :
    List String :=
  if tipoData = some ("TARJETA_CREDITO") then
    match v with
    | none => [("limite_credito.requerido")]
    | some x => if x < 0 then [("limite_credito.requerido")] else []
  else if v ≠ none ∧ tipoData ≠ none then
    [("limite_credito.solo_tarjetas")]
  else []

/-- Errors of field nombre: Field constraints min_length 1 and
max_length 100, then validar_nombre_no_vacio. -/
def eNombre (i : CreateInput) : List String :=
  if 1 ≤ i.nombre.length ∧ i.nombre.length ≤ 100 then
    validar_nombre_no_vacio (some i.nombre)
  else [("nombre.length")]

/-- Errors of field tipo_cuenta. -/
def eTipoCuenta (i : CreateInput) : List String :=
  validar_tipo_cuenta (some i.tipo_cuenta)

/-- The info.data entry for tipo_cuenta after it was processed. -/
def dTipoCuenta (i : CreateInput) : Option String :=
  if validar_tipo_cuenta (some i.tipo_cuenta) = [] then some i.tipo_cuenta
  else none

/-- Errors of field institucion: Field constraint max_length 100. -/
def eInstitucion (i : CreateInput) : List String :=
  match i.institucion with
  | .given s => if s.length ≤ 100 then [] else [("institucion.max_length")]
  | _ => []

/-- Errors of field numero_cuenta: Field constraint max_length 50. -/
def eNumeroCuenta (i : CreateInput) : List String :=
  match i.numero_cuenta with
  | .given s => if s.length ≤ 50 then [] else [("numero_cuenta.max_length")]
  | _ => []

/-- Errors of field moneda: skipped when omitted (default USD);
otherwise the Field pattern of three uppercase letters, then
validar_moneda. -/
def eMoneda (i : CreateInput) : List String :=
  match i.moneda with
  | none => []
  | some s =>
    if matchesIso3 s then validar_moneda (some s) else [("moneda.pattern")]

/-- Errors of field limite_credito: skipped when omitted; otherwise the
Field constraint ge 0 on a value, then validar_limite_credito with
tipo_cuenta read from info.data. -/
def eLimiteCredito (i : CreateInput) : List String :=
  match i.limite_credito with
  | .absent => []
  | .null => validar_limite_credito none (dTipoCuenta i)
  | .given v =>
    if 0 ≤ v then validar_limite_credito (some v) (dTipoCuenta i)
    else [("limite_credito.ge")]

/-- Errors of field dia_corte: Field constraints ge 1 le 31. -/
def eDiaCorte (i : CreateInput) : List String :=
  match i.dia_corte with
  | .given v => if 1 ≤ v ∧ v ≤ 31 then [] else [("dia_corte.rango")]
  | _ => []

/-- Errors of field dia_pago: Field constraints ge 1 le 31. -/
def eDiaPago (i : CreateInput) : List String :=
  match i.dia_pago with
  | .given v => if 1 ≤ v ∧ v ≤ 31 then [] else [("dia_pago.rango")]
  | _ => []

/-- Errors of field tasa_interes: Field constraints ge 0 le 100. -/
def eTasaInteres (i : CreateInput) : List String :=
  match i.tasa_interes with
  | .given v => if 0 ≤ v ∧ v ≤ 100 then [] else [("tasa_interes.rango")]
  | _ => []

/-- Errors of field color_hex: skipped when omitted; otherwise the Field
hex-color pattern (Cuenta attaches no custom validator to it). -/
def eColorHex (i : CreateInput) : List String :=
  match i.color_hex with
  | none => []
  | some s => if matchesHexColor s then [] else [("color_hex.pattern")]

/-- Errors of field icono: Field constraint max_length 50. -/
def eIcono (i : CreateInput) : List String :=
  match i.icono with
  | .given s => if s.length ≤ 50 then [] else [("icono.max_length")]
  | _ => []

/-- Errors of field usuario_id: the Field constraint gt 0. -/
def eUsuarioId (i : CreateInput) : List String :=
  if i.usuario_id > 0 then [] else [("usuario_id.gt")]

/-- All validation errors of a CuentaCreate body, aggregated in field
declaration order (the fields without checks contribute nothing). -/
def allErrors (i : CreateInput) : List String :=
  eNombre i ++ eTipoCuenta i ++ eInstitucion i ++ eNumeroCuenta i ++
    eMoneda i ++ eLimiteCredito i ++ eDiaCorte i ++ eDiaPago i ++
    eTasaInteres i ++ eColorHex i ++ eIcono i ++ eUsuarioId i

/-- Validation of a CuentaCreate body; accepted values are stored
unchanged, omitted fields take their declared defaults. -/
def validate (i : CreateInput) : Except (List String) CreateModel :=
  if allErrors i = [] then
    .ok { nombre := i.nombre,
          tipo_cuenta := i.tipo_cuenta,
          institucion := i.institucion.toOption,
          numero_cuenta := i.numero_cuenta.toOption,
          moneda := i.moneda.getD ("USD"),
          limite_credito := i.limite_credito.toOption,
          dia_corte := i.dia_corte.toOption,
          dia_pago := i.dia_pago.toOption,
          tasa_interes := i.tasa_interes.toOption,
          activa := i.activa.getD true,
          incluir_en_total := i.incluir_en_total.getD true,
          color_hex := i.color_hex.getD ("#3B82F6"),
          icono := i.icono.toOption,
          orden_mostrar := i.orden_mostrar.getD 0,
          descripcion := i.descripcion.toOption,
          notas := i.notas.toOption,
          usuario_id := i.usuario_id,
          saldo_inicial :=
            match i.saldo_inicial with
            | .absent => some 0
            | .null => none
            | .given v => some v }
  else .error (allErrors i)

/-- A credit-card account request that omits limite_credito. -/
def tarjetaSinLimite : CreateInput :=
  { nombre := ("Visa"), tipo_cuenta := ("TARJETA_CREDITO"),
    institucion := .absent, numero_cuenta := .absent, moneda := none,
    limite_credito := .absent, dia_corte := .absent, dia_pago := .absent,
    tasa_interes := .absent, activa := none, incluir_en_total := none,
    color_hex := none, icono := .absent, orden_mostrar := none,
    descripcion := .absent, notas := .absent, usuario_id := 1,
    saldo_inicial := .absent }

/-- Request body for CuentaUpdate: every field Optional with default
None. -/
structure UpdateInput where
  nombre : Presence String
  tipo_cuenta : Presence String
  institucion : Presence String
  numero_cuenta : Presence String
  moneda : Presence String
  limite_credito : Presence Rat
  dia_corte : Presence Int
  dia_pago : Presence Int
  tasa_interes : Presence Rat
  activa : Presence Bool
  incluir_en_total : Presence Bool
  color_hex : Presence String
  icono : Presence String
  orden_mostrar : Presence Int
  descripcion : Presence String
  notas : Presence String
deriving DecidableEq

/-- Errors of update field nombre. -/
def eUNombre (u : UpdateInput) : List String :=
  match u.nombre with
  | .absent => []
  | .null => validar_nombre_no_vacio none
  | .given s =>
    if 1 ≤ s.length ∧ s.length ≤ 100 then validar_nombre_no_vacio (some s)
    else [("nombre.length")]

/-- Errors of update field tipo_cuenta. -/
def eUTipoCuenta (u : UpdateInput) : List String :=
  match u.tipo_cuenta with
  | .absent => []
  | .null => validar_tipo_cuenta none
  | .given s => validar_tipo_cuenta (some s)

/-- The info.data entry for tipo_cuenta in an update: its default None
when omitted, None when explicitly null, the value when accepted. -/
def dUTipoCuenta (u : UpdateInput) : Option (Option String) :=
  match u.tipo_cuenta with
  | .absent => some none
  | .null => some none
  | .given s => if validar_tipo_cuenta (some s) = [] then some (some s) else none

/-- Errors of update field moneda. -/
def eUMoneda (u : UpdateInput) : List String :=
  match u.moneda with
  | .absent => []
  | .null => validar_moneda none
  | .given s =>
    if matchesIso3 s then validar_moneda (some s) else [("moneda.pattern")]

/-- Errors of update field limite_credito: validar_limite_credito with
tipo_cuenta read from the update info.data. -/
def eULimiteCredito (u : UpdateInput) : List String :=
  match u.limite_credito with
  | .absent => []
  | .null => validar_limite_credito none (dget (dUTipoCuenta u))
  | .given v =>
    if 0 ≤ v then validar_limite_credito (some v) (dget (dUTipoCuenta u))
    else [("limite_credito.ge")]

/-- All validation errors of a CuentaUpdate body, in field declaration
order. -/
def allUpdateErrors (u : UpdateInput) : List String :=
  eUNombre u ++ eUTipoCuenta u ++
  (match u.institucion with
   | .given s => if s.length ≤ 100 then [] else [("institucion.max_length")]
   | _ => []) ++
  (match u.numero_cuenta with
   | .given s => if s.length ≤ 50 then [] else [("numero_cuenta.max_length")]
   | _ => []) ++
  eUMoneda u ++ eULimiteCredito u ++
  (match u.dia_corte with
   | .given v => if 1 ≤ v ∧ v ≤ 31 then [] else [("dia_corte.rango")]
   | _ => []) ++
  (match u.dia_pago with
   | .given v => if 1 ≤ v ∧ v ≤ 31 then [] else [("dia_pago.rango")]
   | _ => []) ++
  (match u.tasa_interes with
   | .given v => if 0 ≤ v ∧ v ≤ 100 then [] else [("tasa_interes.rango")]
   | _ => []) ++
  (match u.color_hex with
   | .given s => if matchesHexColor s then [] else [("color_hex.pattern")]
   | _ => []) ++
  (match u.icono with
   | .given s => if s.length ≤ 50 then [] else [("icono.max_length")]
   | _ => [])

/-- Validation of a CuentaUpdate body: the accepted update carries the
presences unchanged (no Cuenta validator transforms its value). -/
def validateUpdate (u : UpdateInput) : Except (List String) UpdateInput :=
  if allUpdateErrors u = [] then .ok u else .error (allUpdateErrors u)

/-- A row of the cuentas table (src/api/models/cuenta.py), with the
declared column nullabilities. -/
structure Row where
  cuenta_id : Int
  usuario_id : Int
  nombre : String
  tipo_cuenta : String
  institucion : Option String
  numero_cuenta : Option String
  moneda : String
  saldo_actual : Rat
  limite_credito : Option Rat
  dia_corte : Option Int
  dia_pago : Option Int
  tasa_interes : Option Rat
  activa : Bool
  incluir_en_total : Bool
  color_hex : String
  icono : Option String
  orden_mostrar : Int
  descripcion : Option String
  notas : Option String
  creada_en : Int
  actualizada_en : Int
  ultimo_movimiento : Option Int
deriving DecidableEq

/-- True when the update writes an explicit null into a column the
cuentas table declares NOT NULL, so the commit fails. -/
def updateNullsRequired (u : UpdateInput) : Prop :=
  u.nombre = .null ∨ u.tipo_cuenta = .null ∨ u.moneda = .null ∨
  u.activa = .null ∨ u.incluir_en_total = .null ∨ u.color_hex = .null ∨
  u.orden_mostrar = .null

instance (u : UpdateInput) : Decidable (updateNullsRequired u) := by
  unfold updateNullsRequired
  infer_instance

/-- The setattr loop of actualizar_cuenta over model_dump with
exclude_unset: exactly the supplied fields are written, the commit
refreshes actualizada_en (onupdate), and a null written to a NOT NULL
column makes the commit fail.  CuentaUpdate has no field for cuenta_id,
usuario_id, saldo_actual, creada_en or the timestamps, so the loop never
touches them. -/
def applyUpdate (c : Row) (u : UpdateInput) (now : Int) :
    Except DbError Row :=
  if updateNullsRequired u then .error .notNullViolation
  else .ok
    { c with
      nombre := applyReq u.nombre c.nombre,
      tipo_cuenta := applyReq u.tipo_cuenta c.tipo_cuenta,
      institucion := applyOpt u.institucion c.institucion,
      numero_cuenta := applyOpt u.numero_cuenta c.numero_cuenta,
      moneda := applyReq u.moneda c.moneda,
      limite_credito := applyOpt u.limite_credito c.limite_credito,
      dia_corte := applyOpt u.dia_corte c.dia_corte,
      dia_pago := applyOpt u.dia_pago c.dia_pago,
      tasa_interes := applyOpt u.tasa_interes c.tasa_interes,
      activa := applyReq u.activa c.activa,
      incluir_en_total := applyReq u.incluir_en_total c.incluir_en_total,
      color_hex := applyReq u.color_hex c.color_hex,
      icono := applyOpt u.icono c.icono,
      orden_mostrar := applyReq u.orden_mostrar c.orden_mostrar,
      descripcion := applyOpt u.descripcion c.descripcion,
      notas := applyOpt u.notas c.notas,
      actualizada_en := now }

end Cuenta

namespace Deuda

/-- Validation failure of a DeudaUpdate body: either aggregated
ValueErrors, or an uncaught exception (calling upper() on None, or
comparing None with a number) that aborts validation. -/
inductive Failure where
  | invalid : List String → Failure
  | crash : Failure
deriving DecidableEq

/-- Request body for DeudaUpdate: every field Optional with default None
and no Field constraints (the update class declares plain defaults). -/
structure UpdateInput where
  usuario_id : Presence Int
  cuenta_id : Presence Int
  subcuenta_id : Presence Int
  tipo : Presence String
  acreedor : Presence String
  deudor : Presence String
  descripcion : Presence String
  saldo_inicial : Presence Rat
  saldo_actual : Presence Rat
  monto_cuota : Presence Rat
  frecuencia_pago : Presence String
  dia_pago : Presence Int
  tasa_interes : Presence Rat
  numero_cuotas : Presence Int
  cuotas_pagadas : Presence Int
  fecha_inicio : Presence Int
  fecha_vencimiento : Presence Int
  proximo_pago : Presence Int
  estado : Presence String
  prioridad : Presence String
  color_hex : Presence String
  icono : Presence String
deriving DecidableEq

/-- The info.data entry for tipo in an update: its default None when
omitted, the uppercased value when accepted, missing when rejected (the
null case crashes the whole validation before anything reads it). -/
def dUTipo (u : UpdateInput) : Option (Option String) :=
  match u.tipo with
  | .absent => some none
  | .null => some none
  | .given s =>
    match validar_tipo_deuda s with
    | .ok r => some (some r)
    | .error _ => none

/-- The info.data entry for saldo_inicial in an update (an explicit null
passes validar_saldo_inicial, since None is not equal to 0). -/
def dUSaldoInicial (u : UpdateInput) : Option (Option Rat) :=
  match u.saldo_inicial with
  | .absent => some none
  | .null => some none
  | .given v =>
    if validar_saldo_inicial v = [] then some (some v) else none

/-- The info.data entry for numero_cuotas in an update (no checks). -/
def dUNumeroCuotas (u : UpdateInput) : Option (Option Int) :=
  match u.numero_cuotas with
  | .absent => some none
  | .null => some none
  | .given v => some (some v)

/-- True when some validator of the update raises an uncaught exception:
validar_tipo_deuda, validar_estado, validar_prioridad and
validar_color_hex call upper() or re.match on an explicit null;
validar_acreedor_deudor and validar_saldo_actual call upper() on the
info.data entry of tipo, which is None whenever tipo was not supplied;
validar_saldo_actual compares an explicit null with 0; and
validar_cuotas_pagadas compares an explicit null with a truthy
numero_cuotas. -/
def updateCrashes (u : UpdateInput) : Prop :=
  u.tipo = .null ∨
  (u.acreedor.isProvided = true ∧ dUTipo u = some none) ∨
  (u.deudor.isProvided = true ∧ dUTipo u = some none) ∨
  (u.saldo_actual.isProvided = true ∧
    (dUTipo u = some none ∨ u.saldo_actual = .null)) ∨
  (u.cuotas_pagadas = .null ∧
    (∃ n, dget (dUNumeroCuotas u) = some n ∧ n ≠ 0)) ∨
  u.estado = .null ∨ u.prioridad = .null ∨ u.color_hex = .null

instance (u : UpdateInput) : Decidable (updateCrashes u) := by
  unfold updateCrashes
  have : Decidable (∃ n, dget (dUNumeroCuotas u) = some n ∧ n ≠ 0) := by
    rcases h : dget (dUNumeroCuotas u) with _ | n
    · exact .isFalse (by simp [h])
    · exact decidable_of_iff (n ≠ 0) (by simp [h])
  exact instDecidableOr

/-- The error part of an Except-valued validator. -/
def errsOf : Except (List String) α → List String
  | .ok _ => []
  | .error e => e

/-- All ValueErrors of a DeudaUpdate body (meaningful when no validator
crashes), aggregated in field declaration order. -/
def allUpdateErrors (u : UpdateInput) : List String :=
  (match u.tipo with
   | .given s => errsOf (validar_tipo_deuda s)
   | _ => []) ++
  (match u.acreedor with
   | .absent => []
   | _ => validar_acreedor_deudor ("DeudaUpdate") (dget (dUTipo u)) none none) ++
  (match u.deudor with
   | .absent => []
   | _ =>
     validar_acreedor_deudor ("DeudaUpdate") (dget (dUTipo u))
       (dget (match u.acreedor with
              | .absent => some none
              | .null => some none
              | .given s => some (some s))) none) ++
  (match u.saldo_inicial with
   | .given v => validar_saldo_inicial v
   | _ => []) ++
  (match u.saldo_actual with
   | .given v =>
     validar_saldo_actual v (dget (dUTipo u)) (dget (dUSaldoInicial u))
   | _ => []) ++
  (match u.frecuencia_pago with
   | .given s => errsOf (validar_frecuencia_pago (some s))
   | _ => []) ++
  (match u.cuotas_pagadas with
   | .given v => validar_cuotas_pagadas v (dget (dUNumeroCuotas u))
   | _ => []) ++
  (match u.estado with
   | .given s => errsOf (validar_estado s)
   | _ => []) ++
  (match u.prioridad with
   | .given s => errsOf (validar_prioridad s)
   | _ => []) ++
  (match u.color_hex with
   | .given s => errsOf (validar_color_hex s)
   | _ => [])

/-- The accepted update with the transformed values the validators
return (tipo, estado, prioridad, frecuencia_pago and color_hex
uppercased when supplied). -/
def normalizeUpdate (u : UpdateInput) : UpdateInput :=
  { u with
    tipo := u.tipo.map pyUpper,
    frecuencia_pago := u.frecuencia_pago.map pyUpper,
    estado := u.estado.map pyUpper,
    prioridad := u.prioridad.map pyUpper,
    color_hex := u.color_hex.map pyUpper }

/-- Validation of a DeudaUpdate body. -/
def validateUpdate (u : UpdateInput) : Except Failure UpdateInput :=
  if updateCrashes u then .error .crash
  else if allUpdateErrors u = [] then .ok (normalizeUpdate u)
  else .error (.invalid (allUpdateErrors u))

/-- A row of the deudas table (src/api/models/deuda.py), with the
declared column nullabilities. -/
structure Row where
  deuda_id : Int
  usuario_id : Int
  cuenta_id : Option Int
  subcuenta_id : Option Int
  tipo : String
  acreedor : Option String
  deudor : Option String
  descripcion : Option String
  saldo_inicial : Rat
  saldo_actual : Rat
  monto_cuota : Option Rat
  frecuencia_pago : Option String
  dia_pago : Option Int
  tasa_interes : Option Rat
  numero_cuotas : Option Int
  cuotas_pagadas : Option Int
  fecha_inicio : Int
  fecha_vencimiento : Option Int
  proximo_pago : Option Int
  estado : String
  prioridad : Option String
  color_hex : String
  icono : Option String
  creada_en : Int
  actualizada_en : Int
  ultimo_pago : Option Int
deriving DecidableEq

/-- True when the update writes an explicit null into a column the
deudas table declares NOT NULL, so the commit fails. -/
def updateNullsRequired (u : UpdateInput) : Prop :=
  u.usuario_id = .null ∨ u.tipo = .null ∨ u.saldo_inicial = .null ∨
  u.saldo_actual = .null ∨ u.fecha_inicio = .null ∨ u.estado = .null ∨
  u.color_hex = .null

instance (u : UpdateInput) : Decidable (updateNullsRequired u) := by
  unfold updateNullsRequired
  infer_instance

/-- The setattr loop of the shared partial-update pattern applied to a
Deuda row: exactly the supplied fields of the validated DeudaUpdate are
written (saldo_actual among them: DeudaUpdate declares that column as an
updatable field), the commit refreshes actualizada_en. -/
def applyUpdate (d : Row) (u : UpdateInput) (now : Int) :
    Except DbError Row :=
  if updateNullsRequired u then .error .notNullViolation
  else .ok
    { d with
      usuario_id := applyReq u.usuario_id d.usuario_id,
      cuenta_id := applyOpt u.cuenta_id d.cuenta_id,
      subcuenta_id := applyOpt u.subcuenta_id d.subcuenta_id,
      tipo := applyReq u.tipo d.tipo,
      acreedor := applyOpt u.acreedor d.acreedor,
      deudor := applyOpt u.deudor d.deudor,
      descripcion := applyOpt u.descripcion d.descripcion,
      saldo_inicial := applyReq u.saldo_inicial d.saldo_inicial,
      saldo_actual := applyReq u.saldo_actual d.saldo_actual,
      monto_cuota := applyOpt u.monto_cuota d.monto_cuota,
      frecuencia_pago := applyOpt u.frecuencia_pago d.frecuencia_pago,
      dia_pago := applyOpt u.dia_pago d.dia_pago,
      tasa_interes := applyOpt u.tasa_interes d.tasa_interes,
      numero_cuotas := applyOpt u.numero_cuotas d.numero_cuotas,
      cuotas_pagadas := applyOpt u.cuotas_pagadas d.cuotas_pagadas,
      fecha_inicio := applyReq u.fecha_inicio d.fecha_inicio,
      fecha_vencimiento := applyOpt u.fecha_vencimiento d.fecha_vencimiento,
      proximo_pago := applyOpt u.proximo_pago d.proximo_pago,
      estado := applyReq u.estado d.estado,
      prioridad := applyOpt u.prioridad d.prioridad,
      color_hex := applyReq u.color_hex d.color_hex,
      icono := applyOpt u.icono d.icono,
      actualizada_en := now }

/-- An update that supplies tipo and saldo_actual only. -/
def updateSaldoActual : UpdateInput :=
  { usuario_id := .absent, cuenta_id := .absent, subcuenta_id := .absent,
    tipo := .given ("PRESTAMO"), acreedor := .absent, deudor := .absent,
    descripcion := .absent, saldo_inicial := .absent,
    saldo_actual := .given 50, monto_cuota := .absent,
    frecuencia_pago := .absent, dia_pago := .absent, tasa_interes := .absent,
    numero_cuotas := .absent, cuotas_pagadas := .absent,
    fecha_inicio := .absent, fecha_vencimiento := .absent,
    proximo_pago := .absent, estado := .absent, prioridad := .absent,
    color_hex := .absent, icono := .absent }

/-- A stored loan of 100 with current balance 100. -/
def prestamoCien : Row :=
  { deuda_id := 7, usuario_id := 1, cuenta_id := none, subcuenta_id := none,
    tipo := ("PRESTAMO"), acreedor := some ("Banco"), deudor := none,
    descripcion := none, saldo_inicial := 100, saldo_actual := 100,
    monto_cuota := none, frecuencia_pago := none, dia_pago := none,
    tasa_interes := none, numero_cuotas := none, cuotas_pagadas := some 0,
    fecha_inicio := 0, fecha_vencimiento := none, proximo_pago := none,
    estado := ("ACTIVA"), prioridad := some ("MEDIA"),
    color_hex := ("#EF4444"), icono := none, creada_en := 0,
    actualizada_en := 0, ultimo_pago := none }

end Deuda

namespace MovimientoDeuda

/-- Validation failure of a MovimientoDeudaCreate body: aggregated
ValueErrors, or the uncaught TypeError raised by validar_desglose_pago
when it subtracts a monto that is missing from info.data. -/
inductive Failure where
  | invalid : List String → Failure
  | crash : Failure
deriving DecidableEq

/-- Request body for MovimientoDeudaCreate
(src/api/schemas/movimiento_deuda.py, MovimientoDeudaBase). -/
structure CreateInput where
  deuda_id : Int
  transaccion_id : Int
  fecha : Int
  tipo : String
  monto : Rat
  descripcion : Presence String
  interes_generado : Presence Rat
  capital_pagado : Presence Rat
  interes_pagado : Presence Rat
deriving DecidableEq

/-- The validated MovimientoDeudaCreate model. -/
structure Model where
  deuda_id : Int
  transaccion_id : Int
  fecha : Int
  tipo : String
  monto : Rat
  descripcion : Option String
  interes_generado : Option Rat
  capital_pagado : Option Rat
  interes_pagado : Option Rat
deriving DecidableEq

/-- Closed value set of MovimientoDeuda.tipo. -/
def tiposValidos : List String :=
  [("CARGO"), ("PAGO"), ("AJUSTE"), ("INTERES"), ("REFINANCIACION")]

/-- validar_tipo: accepts when the uppercased value is in the set and
stores the uppercased value. -/
def validar_tipo (v : String) : Except (List String) String :=
  if pyUpper v ∈ tiposValidos then .ok (pyUpper v)
  else .error [("tipo.invalido")]

/-- validar_campos_pago: a non-None value of capital_pagado or
interes_pagado is only allowed when tipo (read from info.data) is PAGO. -/
def validar_campos_pago (v : Option Rat) (tipoData : Option String) :
    List String :=
  if v ≠ none ∧ tipoData ≠ some ("PAGO") then [("campos_pago.solo_pago")]
  else []

/-- validar_desglose_pago (attached to interes_pagado): when tipo is
PAGO, both parts must be non-None and their sum must equal monto within
0.01; reading monto from info.data when it is missing there makes the
subtraction raise a TypeError (the crash arm). -/
def validar_desglose_pago (v : Option Rat) (tipoData : Option String)
    (capitalData montoData : Option Rat) : Except Unit (List String) :=
  if tipoData = some ("PAGO") then
    match capitalData, v with
    | none, _ => .ok [("desglose.obligatorios")]
    | _, none => .ok [("desglose.obligatorios")]
    | some cap, some ip =>
      match montoData with
      | none => .error ()
      | some monto =>
        .ok (if |cap + ip - monto| > 1 / 100 then [("desglose.suma")] else [])
  else .ok []

/-- validar_interes_generado: a positive non-None value is only allowed
when tipo (read from info.data) is INTERES. -/
def validar_interes_generado (v : Option Rat) (tipoData : Option String) :
    List String :=
  match v with
  | some x => if x > 0 ∧ tipoData ≠ some ("INTERES") then
      [("interes_generado.solo_interes")]
    else []
  | none => []

/-- Errors of field deuda_id: the Field constraint gt 0. -/
def eDeudaId (i : CreateInput) : List String :=
  if i.deuda_id > 0 then [] else [("deuda_id.gt")]

/-- Errors of field transaccion_id: the Field constraint gt 0. -/
def eTransaccionId (i : CreateInput) : List String :=
  if i.transaccion_id > 0 then [] else [("transaccion_id.gt")]

/-- Errors of field tipo. -/
def eTipo (i : CreateInput) : List String :=
  match validar_tipo i.tipo with
  | .ok _ => []
  | .error e => e

/-- The info.data entry for tipo. -/
def dTipo (i : CreateInput) : Option String := (validar_tipo i.tipo).toOption

/-- Errors of field monto: the Field constraint gt 0. -/
def eMonto (i : CreateInput) : List String :=
  if i.monto > 0 then [] else [("monto.gt")]

/-- The info.data entry for monto. -/
def dMonto (i : CreateInput) : Option Rat :=
  if i.monto > 0 then some i.monto else none

/-- Errors of field interes_generado: Field constraint ge 0 on a value,
then validar_interes_generado. -/
def eInteresGenerado (i : CreateInput) : List String :=
  match i.interes_generado with
  | .absent => []
  | .null => validar_interes_generado none (dTipo i)
  | .given v =>
    if 0 ≤ v then validar_interes_generado (some v) (dTipo i)
    else [("interes_generado.ge")]

/-- Errors of field capital_pagado: Field constraint ge 0 on a value,
then validar_campos_pago. -/
def eCapitalPagado (i : CreateInput) : List String :=
  match i.capital_pagado with
  | .absent => []
  | .null => validar_campos_pago none (dTipo i)
  | .given v =>
    if 0 ≤ v then validar_campos_pago (some v) (dTipo i)
    else [("capital_pagado.ge")]

/-- The info.data entry for capital_pagado. -/
def dCapitalPagado (i : CreateInput) : Option (Option Rat) :=
  match i.capital_pagado with
  | .absent => some none
  | .null =>
    if validar_campos_pago none (dTipo i) = [] then some none else none
  | .given v =>
    if 0 ≤ v ∧ validar_campos_pago (some v) (dTipo i) = [] then
      some (some v)
    else none

/-- Checks of field interes_pagado: Field constraint ge 0, then
validar_campos_pago, then validar_desglose_pago, in definition order;
the first ValueError stops the chain, a TypeError aborts everything. -/
def interesPagadoChecks (i : CreateInput) : Except Unit (List String) :=
  match i.interes_pagado with
  | .absent => .ok []
  | .null =>
    let e1 := validar_campos_pago none (dTipo i)
    if e1 ≠ [] then .ok e1
    else validar_desglose_pago none (dTipo i) (dget (dCapitalPagado i)) (dMonto i)
  | .given v =>
    if 0 ≤ v then
      let e1 := validar_campos_pago (some v) (dTipo i)
      if e1 ≠ [] then .ok e1
      else
        validar_desglose_pago (some v) (dTipo i) (dget (dCapitalPagado i))
          (dMonto i)
    else .ok [("interes_pagado.ge")]

/-- Validation of a MovimientoDeudaCreate body. -/
def validate (i : CreateInput) : Except Failure Model :=
  match interesPagadoChecks i with
  | .error () => .error .crash
  | .ok eIP =>
    let errs := eDeudaId i ++ eTransaccionId i ++ eTipo i ++ eMonto i ++
      eInteresGenerado i ++ eCapitalPagado i ++ eIP
    if errs = [] then
      .ok { deuda_id := i.deuda_id, transaccion_id := i.transaccion_id,
            fecha := i.fecha, tipo := (dTipo i).getD (""),
            monto := i.monto, descripcion := i.descripcion.toOption,
            interes_generado := i.interes_generado.toOption,
            capital_pagado := i.capital_pagado.toOption,
            interes_pagado := i.interes_pagado.toOption }
    else .error (.invalid errs)

/-- A payment that omits both breakdown fields. -/
def pagoSinDesglose : CreateInput :=
  { deuda_id := 1, transaccion_id := 1, fecha := 0, tipo := ("PAGO"),
    monto := 10, descripcion := .absent, interes_generado := .absent,
    capital_pagado := .absent, interes_pagado := .absent }

/-- A payment that supplies a capital part inconsistent with monto and
omits the interest part. -/
def pagoDesgloseParcial : CreateInput :=
  { deuda_id := 1, transaccion_id := 1, fecha := 0, tipo := ("PAGO"),
    monto := 10, descripcion := .absent, interes_generado := .absent,
    capital_pagado := .given 3, interes_pagado := .absent }

end MovimientoDeuda

namespace MovimientoSubcuenta

/-- Validation failure of a MovimientoSubcuentaCreate body: aggregated
ValueErrors, or the uncaught AttributeError raised by
validar_transferencia_destino, which calls a get method on the
ValidationInfo object itself (a pydantic v1 leftover: ValidationInfo has
no such method), so any request that supplies subcuenta_destino_id
aborts with an exception instead of being validated. -/
inductive Failure where
  | invalid : List String → Failure
  | crash : Failure
deriving DecidableEq

/-- Request body for MovimientoSubcuentaCreate
(src/api/schemas/movimiento_subcuenta.py, MovimientoSubcuentaBase). -/
structure CreateInput where
  subcuenta_id : Int
  subcuenta_destino_id : Presence Int
  transaccion_id : Presence Int
  fecha : Int
  tipo : String
  monto : Rat
  descripcion : Presence String
deriving DecidableEq

/-- The validated MovimientoSubcuentaCreate model. -/
structure Model where
  subcuenta_id : Int
  subcuenta_destino_id : Option Int
  transaccion_id : Option Int
  fecha : Int
  tipo : String
  monto : Rat
  descripcion : Option String
deriving DecidableEq

/-- Closed value set of MovimientoSubcuenta.tipo. -/
def tiposValidos : List String :=
  [("ASIGNACION"), ("GASTO"), ("TRANSFERENCIA"), ("AJUSTE")]

/-- validar_tipo_movimiento: accepts when the uppercased value is in the
set and stores the uppercased value. -/
def validar_tipo_movimiento (v : String) : Except (List String) String :=
  if pyUpper v ∈ tiposValidos then .ok (pyUpper v)
  else .error [("tipo.invalido")]

/-- validar_monto_positivo. -/
def validar_monto_positivo (v : Rat) : List String :=
  if v ≤ 0 then [("monto.no_positivo")] else []

/-- Errors of field tipo. -/
def eTipo (i : CreateInput) : List String :=
  match validar_tipo_movimiento i.tipo with
  | .ok _ => []
  | .error e => e

/-- Errors of field monto. -/
def eMonto (i : CreateInput) : List String := validar_monto_positivo i.monto

/-- Validation of a MovimientoSubcuentaCreate body.  subcuenta_destino_id
is the second declared field: whenever it is supplied its validator runs
and raises the AttributeError, aborting the request; when it is omitted
the validator is skipped, so no transfer check happens at all and the
remaining fields are validated normally. -/
def validate (i : CreateInput) : Except Failure Model :=
  if i.subcuenta_destino_id.isProvided then .error .crash
  else
    let errs := eTipo i ++ eMonto i
    if errs = [] then
      .ok { subcuenta_id := i.subcuenta_id,
            subcuenta_destino_id := none,
            transaccion_id := i.transaccion_id.toOption,
            fecha := i.fecha,
            tipo := (validar_tipo_movimiento i.tipo).toOption.getD (""),
            monto := i.monto,
            descripcion := i.descripcion.toOption }
    else .error (.invalid errs)

/-- A transfer that omits the destination sub-account. -/
def transferenciaSinDestino : CreateInput :=
  { subcuenta_id := 1, subcuenta_destino_id := .absent,
    transaccion_id := .absent, fecha := 0, tipo := ("TRANSFERENCIA"),
    monto := 10, descripcion := .absent }

/-- An assignment that supplies a destination sub-account. -/
def asignacionConDestino : CreateInput :=
  { subcuenta_id := 1, subcuenta_destino_id := .given 2,
    transaccion_id := .absent, fecha := 0, tipo := ("ASIGNACION"),
    monto := 10, descripcion := .absent }

end MovimientoSubcuenta

namespace Categoria

/-- Closed value set of Categoria.tipo_transaccion. -/
def tiposValidos : List String :=
  [("INGRESO"), ("GASTO"), ("TRANSFERENCIA"), ("AJUSTE")]

/-- validar_tipo_transaccion: a non-None value must belong to the set
literally; no case normalization is applied. -/
def validar_tipo_transaccion (v : Option String) : List String :=
  match v with
  | none => []
  | some s => if s ∈ tiposValidos then [] else [("tipo_transaccion.invalido")]

end Categoria

namespace Store

/-- A row of the transacciones table (src/api/models/transaccion.py). -/
structure TransaccionRow where
  transaccion_id : Int
  usuario_id : Int
  cuenta_origen_id : Option Int
  cuenta_destino_id : Option Int
  categoria_id : Option Int
  compromiso_recurrente_id : Option Int
  fecha : Int
  tipo : String
  monto : Rat
  descripcion : Option String
  referencia : Option String
deriving DecidableEq

/-- A row of the categorias table (the fields crear_cuenta touches). -/
structure CategoriaRow where
  categoria_id : Int
  nombre : String
  tipo_transaccion : String
  descripcion : Option String
  activa : Bool
deriving DecidableEq

/-- A row of the subcuentas table (the fields deletion touches); its
cuenta_id foreign key is declared NOT NULL with ondelete CASCADE. -/
structure SubcuentaRow where
  subcuenta_id : Int
  cuenta_id : Int
  nombre : String
  saldo_actual : Rat
deriving DecidableEq

/-- A row of the compromisos_recurrentes table (the fields deletion
touches); cuenta_destino_id is declared nullable with ondelete SET NULL. -/
structure CompromisoRow where
  compromiso_id : Int
  usuario_id : Int
  cuenta_destino_id : Option Int
deriving DecidableEq

/-- A row of the plan_quincenal table (src/api/models/plan_quincenal.py),
restricted to its key and foreign-key columns, the ones the delete
semantics reads: cuenta_origen_id and cuenta_destino_id are declared
ondelete RESTRICT onto cuentas, subcuenta_destino_id ondelete RESTRICT
onto subcuentas, deuda_id RESTRICT onto deudas, transaccion_generada_id
SET NULL onto transacciones. -/
structure PlanQuincenalRow where
  item_id : Int
  usuario_id : Int
  cuenta_origen_id : Option Int
  cuenta_destino_id : Option Int
  subcuenta_destino_id : Option Int
  deuda_id : Option Int
  transaccion_generada_id : Option Int
deriving DecidableEq

/-- A row of the movimientos_subcuentas table
(src/api/models/movimiento_subcuenta.py), restricted to its key and
foreign-key columns: subcuenta_id and subcuenta_destino_id are declared
ondelete RESTRICT onto subcuentas, transaccion_id RESTRICT onto
transacciones. -/
structure MovimientoSubcuentaRow where
  movimiento_subcuenta_id : Int
  subcuenta_id : Int
  subcuenta_destino_id : Option Int
  transaccion_id : Int
deriving DecidableEq

/-- A row of the gastos_planificados table
(src/api/models/gasto_planificado.py), restricted to its key and
foreign-key column: subcuenta_id is declared ondelete CASCADE onto
subcuentas. -/
structure GastoPlanificadoRow where
  gasto_planificado_id : Int
  subcuenta_id : Int
deriving DecidableEq

/-- The persistent store: one list per table whose declared foreign keys
the claims touch, plus the auto-increment counters the database assigns
identifiers from. -/
structure DB where
  usuarios : List Int
  cuentas : List Cuenta.Row
  subcuentas : List SubcuentaRow
  categorias : List CategoriaRow
  transacciones : List TransaccionRow
  deudas : List Deuda.Row
  compromisos : List CompromisoRow
  plan_quincenal : List PlanQuincenalRow
  movimientos_subcuentas : List MovimientoSubcuentaRow
  gastos_planificados : List GastoPlanificadoRow
  nextCuentaId : Int
  nextCategoriaId : Int
  nextTransaccionId : Int
deriving DecidableEq

/-- The cuentas row crear_cuenta inserts: the validated body minus
saldo_inicial (model_dump excludes it; the Cuenta entity has no such
column), balance starting at the column default 0. -/
def rowOfCreate (id : Int) (m : Cuenta.CreateModel) (now : Int) :
    Cuenta.Row :=
  { cuenta_id := id, usuario_id := m.usuario_id, nombre := m.nombre,
    tipo_cuenta := m.tipo_cuenta, institucion := m.institucion,
    numero_cuenta := m.numero_cuenta, moneda := m.moneda,
    saldo_actual := 0, limite_credito := m.limite_credito,
    dia_corte := m.dia_corte, dia_pago := m.dia_pago,
    tasa_interes := m.tasa_interes, activa := m.activa,
    incluir_en_total := m.incluir_en_total, color_hex := m.color_hex,
    icono := m.icono, orden_mostrar := m.orden_mostrar,
    descripcion := m.descripcion, notas := m.notas,
    creada_en := now, actualizada_en := now, ultimo_movimiento := none }

/-- Failures of crear_cuenta before anything is written. -/
inductive CrearCuentaError where
  | usuarioNoEncontrado : CrearCuentaError
  | nombreDuplicado : CrearCuentaError
deriving DecidableEq

/-- First phase of crear_cuenta (src/api/routes/cuentas.py): the user
must exist, no other account of that user may carry the same name, and
the new cuenta row is inserted and committed.  This commit happens
before the adjustment phase below starts. -/
def crearCuentaInsert (db : DB) (m : Cuenta.CreateModel) (now : Int) :
    Except CrearCuentaError (DB × Int) :=
  if m.usuario_id ∈ db.usuarios then
    if db.cuentas.any
        (fun c => decide (c.usuario_id = m.usuario_id ∧ c.nombre = m.nombre))
    then .error .nombreDuplicado
    else
      let id := db.nextCuentaId
      .ok ({ db with
             cuentas := db.cuentas ++ [rowOfCreate id m now],
             nextCuentaId := id + 1 }, id)
  else .error .usuarioNoEncontrado

/-- The query of crear_cuenta for the shared adjustment category: first
categoria with nombre Ajuste Inicial and tipo_transaccion AJUSTE. -/
def buscarCategoriaAjuste (db : DB) : Option CategoriaRow :=
  db.categorias.find?
    (fun c => decide (c.nombre = ("Ajuste Inicial") ∧
      c.tipo_transaccion = ("AJUSTE")))

/-- The categoria row crear_cuenta inserts on first use. -/
def categoriaAjusteRow (id : Int) : CategoriaRow :=
  { categoria_id := id, nombre := ("Ajuste Inicial"),
    tipo_transaccion := ("AJUSTE"),
    descripcion := some ("Categoría para ajustes de saldo inicial"),
    activa := true }

/-- Lookup-or-create of the adjustment categoria: returns the store after
this step and the categoria id the adjustment transaction will use. -/
def categoriaAjusteStep (db : DB) : DB × Int :=
  match buscarCategoriaAjuste db with
  | some c => (db, c.categoria_id)
  | none =>
    let cid := db.nextCategoriaId
    ({ db with
       categorias := db.categorias ++ [categoriaAjusteRow cid],
       nextCategoriaId := cid + 1 }, cid)

/-- The adjustment transaction crear_cuenta inserts: tipo AJUSTE, amount
equal to the requested initial balance, crediting the new account. -/
def ajusteTxRow (tid : Int) (usuarioId cuentaId catId : Int) (si : Rat)
    (nombre : String) (now : Int) : TransaccionRow :=
  { transaccion_id := tid, usuario_id := usuarioId,
    cuenta_origen_id := none, cuenta_destino_id := some cuentaId,
    categoria_id := some catId, compromiso_recurrente_id := none,
    fecha := now, tipo := ("AJUSTE"), monto := si,
    descripcion := some (("Saldo inicial de cuenta: ") ++ nombre),
    referencia := some ("AJUSTE_INICIAL") }

/-- True when the request asked for a positive initial balance: the
route guard is saldo_inicial being truthy (non-None and nonzero) and
greater than 0. -/
def saldoInicialPositivo (o : Option Rat) : Prop :=
  match o with
  | none => False
  | some si => ¬ si = 0 ∧ 0 < si

instance (o : Option Rat) : Decidable (saldoInicialPositivo o) :=
  match o with
  | none => inferInstanceAs (Decidable False)
  | some si => inferInstanceAs (Decidable (¬ si = 0 ∧ 0 < si))

/-- Second phase of crear_cuenta: when a positive initial balance was
requested, look up or create the adjustment categoria (committing the
new categoria on first use) and insert and commit the adjustment
transaction; otherwise this phase writes nothing. -/
def crearCuentaAjuste (db : DB) (m : Cuenta.CreateModel) (newId : Int)
    (now : Int) : DB :=
  if saldoInicialPositivo m.saldo_inicial then
    let paso := categoriaAjusteStep db
    let tid := paso.1.nextTransaccionId
    { paso.1 with
      transacciones := paso.1.transacciones ++
        [ajusteTxRow tid m.usuario_id newId paso.2
          (m.saldo_inicial.getD 0) m.nombre now],
      nextTransaccionId := tid + 1 }
  else db

/-- crear_cuenta end to end: the insert phase commits the account, then
the adjustment phase runs against the already-committed store. -/
def crearCuenta (db : DB) (m : Cuenta.CreateModel) (now : Int) :
    Except CrearCuentaError (DB × Int) :=
  (crearCuentaInsert db m now).map
    (fun p => (crearCuentaAjuste p.1 m p.2 now, p.2))

/-- Failures of eliminar_cuenta: the 404 of the route, or the database
foreign-key violation raised at commit when a declared RESTRICT edge
blocks the delete (the route has no handler for it; it does not compute
or report the individual blocking rows). -/
inductive EliminarCuentaError where
  | notFound : EliminarCuentaError
  | restringida : EliminarCuentaError
deriving DecidableEq

/-- The transacciones rows that reference an account as origin or
destination; both foreign keys are declared ondelete RESTRICT. -/
def transaccionesQueReferencian (db : DB) (cid : Int) :
    List TransaccionRow :=
  db.transacciones.filter
    (fun t => decide (t.cuenta_origen_id = some cid ∨
      t.cuenta_destino_id = some cid))

/-- The plan_quincenal rows that reference an account as origin or
destination; both foreign keys are declared ondelete RESTRICT. -/
def planesQueReferencian (db : DB) (cid : Int) : List PlanQuincenalRow :=
  db.plan_quincenal.filter
    (fun p => decide (p.cuenta_origen_id = some cid ∨
      p.cuenta_destino_id = some cid))

/-- True when deleting the account would cascade a subcuenta that some
movimientos_subcuentas row (subcuenta_id or subcuenta_destino_id) or
some plan_quincenal row (subcuenta_destino_id) still references: those
foreign keys are declared ondelete RESTRICT, so the cascaded delete of
the subcuenta, and with it the whole statement, is refused. -/
def subcuentaCascadaBloqueada (db : DB) (cid : Int) : Bool :=
  (db.subcuentas.filter (fun s => decide (s.cuenta_id = cid))).any
    (fun s =>
      db.movimientos_subcuentas.any
        (fun mv => decide (mv.subcuenta_id = s.subcuenta_id ∨
          mv.subcuenta_destino_id = some s.subcuenta_id)) ||
      db.plan_quincenal.any
        (fun p => decide (p.subcuenta_destino_id = some s.subcuenta_id)))

/-- True when some declared RESTRICT edge blocks deleting the account:
a transacciones or plan_quincenal row references it directly, or a
subcuenta it would cascade is still referenced. -/
def eliminarCuentaBloqueada (db : DB) (cid : Int) : Prop :=
  transaccionesQueReferencian db cid ≠ [] ∨
  planesQueReferencian db cid ≠ [] ∨
  subcuentaCascadaBloqueada db cid = true

instance (db : DB) (cid : Int) :
    Decidable (eliminarCuentaBloqueada db cid) := by
  unfold eliminarCuentaBloqueada
  infer_instance

/-- SET NULL onto a deudas row coming from the cascaded sub-accounts of
the deleted account: Deuda.subcuenta_id is cleared when it references a
subcuenta of the account cid. -/
def deudaSubcuentaNull (db : DB) (cid : Int) (d : Deuda.Row) : Deuda.Row :=
  if db.subcuentas.any (fun s => decide (s.cuenta_id = cid ∧
      d.subcuenta_id = some s.subcuenta_id)) then
    { d with subcuenta_id := none }
  else d

/-- The SET NULL effects of the delete on one deudas row: Deuda.cuenta_id
is cleared when it references the deleted account, and Deuda.subcuenta_id
is cleared when it references one of its cascaded sub-accounts. -/
def deudaTrasEliminar (db : DB) (cid : Int) (d : Deuda.Row) : Deuda.Row :=
  deudaSubcuentaNull db cid
    (if d.cuenta_id = some cid then { d with cuenta_id := none } else d)

/-- eliminar_cuenta (src/api/routes/cuentas.py) under the delete
propagation policies the models declare on their foreign keys: the route
looks the account up (404 when missing) and hands the delete to the
store.  Onto cuentas, Transaccion.cuenta_origen_id/cuenta_destino_id and
PlanQuincenal.cuenta_origen_id/cuenta_destino_id are RESTRICT,
Subcuenta.cuenta_id is CASCADE, Deuda.cuenta_id and
CompromisoRecurrente.cuenta_destino_id are SET NULL.  The cascade on a
subcuenta is itself subject to the foreign keys onto subcuentas:
MovimientoSubcuenta.subcuenta_id/subcuenta_destino_id and
PlanQuincenal.subcuenta_destino_id are RESTRICT (blocking the whole
delete), GastoPlanificado.subcuenta_id is CASCADE, Deuda.subcuenta_id is
SET NULL.  A blocked delete surfaces as the unhandled foreign-key
violation and writes nothing. -/
def eliminarCuenta (db : DB) (cid : Int) : Except EliminarCuentaError DB :=
  if db.cuentas.any (fun c => decide (c.cuenta_id = cid)) then
    if eliminarCuentaBloqueada db cid then .error .restringida
    else
      .ok { db with
            cuentas := db.cuentas.filter
              (fun c => decide (¬ c.cuenta_id = cid)),
            subcuentas := db.subcuentas.filter
              (fun s => decide (¬ s.cuenta_id = cid)),
            gastos_planificados := db.gastos_planificados.filter
              (fun g => ! db.subcuentas.any
                (fun s => decide (s.cuenta_id = cid ∧
                  g.subcuenta_id = s.subcuenta_id))),
            deudas := db.deudas.map (deudaTrasEliminar db cid),
            compromisos := db.compromisos.map
              (fun k => if k.cuenta_destino_id = some cid then
                { k with cuenta_destino_id := none } else k) }
  else .error .notFound

/-- A store holding one user and nothing else. -/
def soloUsuario : DB :=
  { usuarios := [1], cuentas := [], subcuentas := [], categorias := [],
    transacciones := [], deudas := [], compromisos := [],
    plan_quincenal := [], movimientos_subcuentas := [],
    gastos_planificados := [],
    nextCuentaId := 1, nextCategoriaId := 1, nextTransaccionId := 1 }

/-- A cash-account request of user 1 with initial balance 100. -/
def efectivoConSaldo : Cuenta.CreateModel :=
  { nombre := ("Caja"), tipo_cuenta := ("EFECTIVO"), institucion := none,
    numero_cuenta := none, moneda := ("USD"), limite_credito := none,
    dia_corte := none, dia_pago := none, tasa_interes := none,
    activa := true, incluir_en_total := true, color_hex := ("#3B82F6"),
    icono := none, orden_mostrar := 0, descripcion := none, notas := none,
    usuario_id := 1, saldo_inicial := some 100 }

/-- A stored cash account of user 1. -/
def cuentaUno : Cuenta.Row :=
  { cuenta_id := 1, usuario_id := 1, nombre := ("Caja"),
    tipo_cuenta := ("EFECTIVO"), institucion := none, numero_cuenta := none,
    moneda := ("USD"), saldo_actual := 0, limite_credito := none,
    dia_corte := none, dia_pago := none, tasa_interes := none,
    activa := true, incluir_en_total := true, color_hex := ("#3B82F6"),
    icono := none, orden_mostrar := 0, descripcion := none, notas := none,
    creada_en := 0, actualizada_en := 0, ultimo_movimiento := none }

/-- A second stored account of user 1. -/
def cuentaDos : Cuenta.Row :=
  { cuentaUno with cuenta_id := 2, nombre := ("Banco") }

/-- A third stored account of user 1. -/
def cuentaTres : Cuenta.Row :=
  { cuentaUno with cuenta_id := 3, nombre := ("Ahorro") }

/-- A fourth stored account of user 1. -/
def cuentaCuatro : Cuenta.Row :=
  { cuentaUno with cuenta_id := 4, nombre := ("Wallet") }

/-- A stored transaction drawing on account 1. -/
def txDesdeUno : TransaccionRow :=
  { transaccion_id := 1, usuario_id := 1, cuenta_origen_id := some 1,
    cuenta_destino_id := none, categoria_id := none,
    compromiso_recurrente_id := none, fecha := 0, tipo := ("GASTO"),
    monto := 5, descripcion := none, referencia := none }

/-- A stored sub-account of account 2. -/
def subDeDos : SubcuentaRow :=
  { subcuenta_id := 1, cuenta_id := 2, nombre := ("Sobre"),
    saldo_actual := 0 }

/-- A stored sub-account of account 4. -/
def subDeCuatro : SubcuentaRow :=
  { subcuenta_id := 2, cuenta_id := 4, nombre := ("Reserva"),
    saldo_actual := 0 }

/-- A stored debt linked to account 2. -/
def deudaDeDos : Deuda.Row := { Deuda.prestamoCien with cuenta_id := some 2 }

/-- A stored recurring commitment paying into account 2. -/
def compDeDos : CompromisoRow :=
  { compromiso_id := 1, usuario_id := 1, cuenta_destino_id := some 2 }

/-- A stored scheduled movement drawing on account 3. -/
def planDesdeTres : PlanQuincenalRow :=
  { item_id := 1, usuario_id := 1, cuenta_origen_id := some 3,
    cuenta_destino_id := none, subcuenta_destino_id := none,
    deuda_id := none, transaccion_generada_id := none }

/-- A stored sub-account ledger entry on the sub-account of account 4. -/
def movDeSubCuatro : MovimientoSubcuentaRow :=
  { movimiento_subcuenta_id := 1, subcuenta_id := 2,
    subcuenta_destino_id := none, transaccion_id := 1 }

/-- A stored planned expense on the sub-account of account 2. -/
def gastoDeSubDos : GastoPlanificadoRow :=
  { gasto_planificado_id := 1, subcuenta_id := 1 }

/-- A store where account 1 has a referencing transaction, account 2 has
a sub-account (with a planned expense), a debt and a commitment but no
blocking references, account 3 is referenced by a plan_quincenal row,
and the sub-account of account 4 is referenced by a
movimientos_subcuentas row. -/
def dbEjemplo : DB :=
  { usuarios := [1],
    cuentas := [cuentaUno, cuentaDos, cuentaTres, cuentaCuatro],
    subcuentas := [subDeDos, subDeCuatro], categorias := [],
    transacciones := [txDesdeUno], deudas := [deudaDeDos],
    compromisos := [compDeDos], plan_quincenal := [planDesdeTres],
    movimientos_subcuentas := [movDeSubCuatro],
    gastos_planificados := [gastoDeSubDos], nextCuentaId := 5,
    nextCategoriaId := 1, nextTransaccionId := 2 }

end Store

namespace Cuenta

/-- An update that renames the account and nothing else. -/
def cambioNombre : UpdateInput :=
  { nombre := .given ("Gastos"), tipo_cuenta := .absent,
    institucion := .absent, numero_cuenta := .absent, moneda := .absent,
    limite_credito := .absent, dia_corte := .absent, dia_pago := .absent,
    tasa_interes := .absent, activa := .absent, incluir_en_total := .absent,
    color_hex := .absent, icono := .absent, orden_mostrar := .absent,
    descripcion := .absent, notas := .absent }

/-- The credit-card request of tarjetaSinLimite, but with an explicit
null limite_credito instead of an omitted one. -/
def tarjetaLimiteNull : CreateInput :=
  { tarjetaSinLimite with limite_credito := .null }

/-- Frame contract of the partial-update path on a cuentas row: the
identifier, the owner, the creation timestamp and the derived balance
are untouched, every omitted field keeps its stored value, and every
supplied field is replaced. -/
def frameOk (c : Row) (u : UpdateInput) (c' : Row) : Prop :=
  c'.cuenta_id = c.cuenta_id ∧ c'.usuario_id = c.usuario_id ∧
  c'.creada_en = c.creada_en ∧ c'.saldo_actual = c.saldo_actual ∧
  c'.ultimo_movimiento = c.ultimo_movimiento ∧
  (u.nombre = .absent → c'.nombre = c.nombre) ∧
  (u.tipo_cuenta = .absent → c'.tipo_cuenta = c.tipo_cuenta) ∧
  (u.institucion = .absent → c'.institucion = c.institucion) ∧
  (u.numero_cuenta = .absent → c'.numero_cuenta = c.numero_cuenta) ∧
  (u.moneda = .absent → c'.moneda = c.moneda) ∧
  (u.limite_credito = .absent → c'.limite_credito = c.limite_credito) ∧
  (u.dia_corte = .absent → c'.dia_corte = c.dia_corte) ∧
  (u.dia_pago = .absent → c'.dia_pago = c.dia_pago) ∧
  (u.tasa_interes = .absent → c'.tasa_interes = c.tasa_interes) ∧
  (u.activa = .absent → c'.activa = c.activa) ∧
  (u.incluir_en_total = .absent → c'.incluir_en_total = c.incluir_en_total) ∧
  (u.color_hex = .absent → c'.color_hex = c.color_hex) ∧
  (u.icono = .absent → c'.icono = c.icono) ∧
  (u.orden_mostrar = .absent → c'.orden_mostrar = c.orden_mostrar) ∧
  (u.descripcion = .absent → c'.descripcion = c.descripcion) ∧
  (u.notas = .absent → c'.notas = c.notas) ∧
  (∀ s, u.nombre = .given s → c'.nombre = s) ∧
  (∀ s, u.tipo_cuenta = .given s → c'.tipo_cuenta = s) ∧
  (∀ x, u.limite_credito = .given x → c'.limite_credito = some x) ∧
  (∀ b, u.activa = .given b → c'.activa = b)

end Cuenta

namespace Deuda

/-- The stored loan after applying the update that sets saldo_actual. -/
def prestamoCienActualizado : Row :=
  { prestamoCien with saldo_actual := 50, actualizada_en := 1 }

end Deuda

namespace Store

/-- The example account after the renaming update. -/
def cuentaRenombrada : Cuenta.Row :=
  { cuentaUno with nombre := ("Gastos"), actualizada_en := 5 }

/-- The store after the insert phase of creating the cash account. -/
def dbTrasInsert : DB :=
  { soloUsuario with
    cuentas := [rowOfCreate 1 efectivoConSaldo 0], nextCuentaId := 2 }

end Store

namespace Deuda

theorem pyUpper_fixed_tipos : ∀ t ∈ tiposValidos, pyUpper t = t := by decide

theorem eTipo_nil {i : CreateInput} (h : eTipo i = []) :
    pyUpper i.tipo ∈ tiposValidos ∧ dTipo i = some (pyUpper i.tipo) := by
  by_cases hm : pyUpper i.tipo ∈ tiposValidos
  · exact ⟨hm, by simp [dTipo, validar_tipo_deuda, hm, Except.toOption]⟩
  · simp [eTipo, validar_tipo_deuda, hm] at h

theorem eSaldoInicial_nil {i : CreateInput} (h : eSaldoInicial i = []) :
    i.saldo_inicial ≠ 0 ∧ dSaldoInicial i = some i.saldo_inicial := by
  by_cases h0 : i.saldo_inicial = 0
  · simp [eSaldoInicial, validar_saldo_inicial, h0] at h
  · exact ⟨h0, by simp [dSaldoInicial, validar_saldo_inicial, h0]⟩

theorem saldo_actual_ok_por_cobrar {sa si : Rat} {up : String}
    (hup : pyUpper up = ("POR_COBRAR")) (hsi : si ≠ 0)
    (h : validar_saldo_actual sa (some up) (some si) = []) :
    si < 0 ∧ si ≤ sa ∧ sa ≤ 0 := by
  have h' : (if sa > 0 then [("saldo_actual.positivo")]
      else if si ≠ 0 ∧ sa < si then [("saldo_actual.menor_que_inicial")]
      else ([] : List String)) = [] := by
    simpa [validar_saldo_actual, hup] using h
  by_cases hpos : sa > 0
  · rw [if_pos hpos] at h'
    exact absurd h' (by simp)
  · rw [if_neg hpos] at h'
    by_cases hlt : si ≠ 0 ∧ sa < si
    · rw [if_pos hlt] at h'
      exact absurd h' (by simp)
    · push_neg at hpos
      have hge : si ≤ sa := by
        by_contra hc
        exact hlt ⟨hsi, by linarith⟩
      refine ⟨?_, hge, hpos⟩
      rcases lt_or_gt_of_ne hsi with h0 | h0
      · exact h0
      · linarith

theorem saldo_actual_ok_otro {sa si : Rat} {up : String}
    (hup : pyUpper up ≠ ("POR_COBRAR")) (hsi : si ≠ 0)
    (h : validar_saldo_actual sa (some up) (some si) = []) :
    0 < si ∧ 0 ≤ sa ∧ sa ≤ si := by
  have h' : (if sa < 0 then [("saldo_actual.negativo")]
      else if si ≠ 0 ∧ sa > si then [("saldo_actual.mayor_que_inicial")]
      else ([] : List String)) = [] := by
    simpa [validar_saldo_actual, hup] using h
  by_cases hneg : sa < 0
  · rw [if_pos hneg] at h'
    exact absurd h' (by simp)
  · rw [if_neg hneg] at h'
    by_cases hgt : si ≠ 0 ∧ sa > si
    · rw [if_pos hgt] at h'
      exact absurd h' (by simp)
    · push_neg at hneg
      have hle : sa ≤ si := by
        by_contra hc
        exact hgt ⟨hsi, by linarith⟩
      refine ⟨?_, hneg, hle⟩
      rcases lt_or_gt_of_ne hsi with h0 | h0
      · linarith
      · exact h0

/-- C2: every DeudaCreate body the validators accept satisfies the
balance bounds of its debt type: a POR_COBRAR receivable has a negative
initial balance and a current balance between it and 0 inclusive, and
every other type has a positive initial balance and a current balance
between 0 and it inclusive (so any body with balances outside these
bounds is rejected). -/
theorem deuda_create_saldos_en_rango (i : CreateInput) (m : Model)
    (h : validate i = .ok m) :
    (m.tipo = ("POR_COBRAR") →
      m.saldo_inicial < 0 ∧ m.saldo_inicial ≤ m.saldo_actual ∧
        m.saldo_actual ≤ 0) ∧
    (m.tipo ≠ ("POR_COBRAR") →
      0 < m.saldo_inicial ∧ 0 ≤ m.saldo_actual ∧
        m.saldo_actual ≤ m.saldo_inicial) := by
  unfold validate at h
  by_cases he : allErrors i = []
  · rw [if_pos he] at h
    injection h with h
    subst h
    unfold allErrors at he
    simp only [List.append_eq_nil] at he
    obtain ⟨⟨⟨⟨⟨⟨⟨⟨⟨⟨⟨⟨⟨hTipo, _⟩, _⟩, hSI⟩, hSA⟩, _⟩, _⟩, _⟩, _⟩, _⟩,
      _⟩, _⟩, _⟩, _⟩ := he
    obtain ⟨hmem, hdT⟩ := eTipo_nil hTipo
    obtain ⟨hsi0, hdSI⟩ := eSaldoInicial_nil hSI
    have hSA' : validar_saldo_actual i.saldo_actual
        (some (pyUpper i.tipo)) (some i.saldo_inicial) = [] := by
      rw [← hdT, ← hdSI]
      exact hSA
    have hfix : pyUpper (pyUpper i.tipo) = pyUpper i.tipo :=
      pyUpper_fixed_tipos _ hmem
    dsimp only
    rw [hdT, Option.getD_some]
    by_cases hPC : pyUpper i.tipo = ("POR_COBRAR")
    · have hb := saldo_actual_ok_por_cobrar (by rw [hfix, hPC]) hsi0 hSA'
      exact ⟨fun _ => ⟨hb.1, hb.2.1, hb.2.2⟩, fun hne => absurd hPC hne⟩
    · have hb := saldo_actual_ok_otro (by rw [hfix]; exact hPC) hsi0 hSA'
      exact ⟨fun hc => absurd hc hPC, fun _ => ⟨hb.1, hb.2.1, hb.2.2⟩⟩
  · rw [if_neg he] at h
    exact absurd h (by simp)

/-- Witness for C2: the receivable scenario of the specification is
accepted and the theorem instantiates on it. -/
theorem deuda_create_saldos_en_rango_witness :
    ((("POR_COBRAR") : String) = ("POR_COBRAR") →
      ((-500 : Rat) < 0 ∧ (-500 : Rat) ≤ -500 ∧ (-500 : Rat) ≤ 0)) ∧
    ((("POR_COBRAR") : String) ≠ ("POR_COBRAR") →
      (0 < (-500 : Rat) ∧ (0 : Rat) ≤ -500 ∧ (-500 : Rat) ≤ -500)) :=
  deuda_create_saldos_en_rango porCobrarCarlos
    { usuario_id := 1, cuenta_id := none, subcuenta_id := none,
      tipo := ("POR_COBRAR"), acreedor := none, deudor := some ("Carlos"),
      descripcion := none, saldo_inicial := -500, saldo_actual := -500,
      monto_cuota := none, frecuencia_pago := none, dia_pago := none,
      tasa_interes := none, numero_cuotas := none, cuotas_pagadas := 0,
      fecha_inicio := 0, fecha_vencimiento := none, proximo_pago := none,
      estado := ("ACTIVA"), prioridad := ("MEDIA"),
      color_hex := ("#EF4444"), icono := none } (by rfl)

end Deuda

namespace Transaccion

/-- C1: the cross-account rules of TransaccionCreate misfire.  The
account fields are declared before tipo and the validators read both
accounts from info.data only, so a transfer that supplies no account at
all is accepted (its model shows tipo TRANSFERENCIA with both accounts
None), while an income that correctly supplies a destination account is
rejected by validar_al_menos_una_cuenta, the validator whose message
demands at least one account.  This contradicts the documented rules
that at least one account must be present, that a transfer needs both,
and that rule-respecting requests are accepted. -/
theorem transaccion_create_validadores_invertidos :
    validate transferenciaSinCuentas =
      .ok { usuario_id := 1, cuenta_origen_id := none,
            cuenta_destino_id := none, categoria_id := none,
            compromiso_recurrente_id := none, fecha := 0,
            tipo := ("TRANSFERENCIA"), monto := 10, descripcion := none,
            referencia := none } ∧
    validate ingresoConDestino = .error [("cuentas.al_menos_una")] :=
  ⟨rfl, rfl⟩

end Transaccion

namespace MovimientoDeuda

/-- C3: a PAGO movement that omits capital_pagado and interes_pagado is
accepted with both parts None, and a PAGO that supplies only a capital
part inconsistent with monto is accepted as well, because the validators
demanding both parts and reconciling their sum only run when
interes_pagado itself is supplied.  This contradicts the documented rule
that tipo PAGO holds exactly when both parts are present and sum to
monto within 0.01. -/
theorem movimiento_deuda_pago_sin_desglose_aceptado :
    validate pagoSinDesglose =
      .ok { deuda_id := 1, transaccion_id := 1, fecha := 0,
            tipo := ("PAGO"), monto := 10, descripcion := none,
            interes_generado := none, capital_pagado := none,
            interes_pagado := none } ∧
    validate pagoDesgloseParcial =
      .ok { deuda_id := 1, transaccion_id := 1, fecha := 0,
            tipo := ("PAGO"), monto := 10, descripcion := none,
            interes_generado := none, capital_pagado := some 3,
            interes_pagado := none } :=
  ⟨rfl, rfl⟩

end MovimientoDeuda

namespace Cuenta

/-- C4: a TARJETA_CREDITO creation that omits limite_credito is accepted
with limite_credito None, because validar_limite_credito only runs when
the field is supplied; the same request with an explicit null is
rejected by that validator.  This contradicts the documented rule that a
credit card must carry a nonnegative limit. -/
theorem cuenta_create_tarjeta_sin_limite_aceptada :
    validate tarjetaSinLimite =
      .ok { nombre := ("Visa"), tipo_cuenta := ("TARJETA_CREDITO"),
            institucion := none, numero_cuenta := none, moneda := ("USD"),
            limite_credito := none, dia_corte := none, dia_pago := none,
            tasa_interes := none, activa := true, incluir_en_total := true,
            color_hex := ("#3B82F6"), icono := none, orden_mostrar := 0,
            descripcion := none, notas := none, usuario_id := 1,
            saldo_inicial := some 0 } ∧
    validate tarjetaLimiteNull = .error [("limite_credito.requerido")] :=
  ⟨rfl, rfl⟩

end Cuenta

namespace MovimientoSubcuenta

/-- C9: the transfer rule of MovimientoSubcuentaCreate never validates
anything.  A TRANSFERENCIA that omits subcuenta_destino_id is accepted
(the validator is skipped for omitted fields), and any request that does
supply subcuenta_destino_id aborts with an AttributeError because the
validator calls a get method on the ValidationInfo object, so it is not
even rejected with a ValidationError.  This contradicts the documented
rule that tipo TRANSFERENCIA holds exactly when the destination
sub-account is present. -/
theorem movimiento_subcuenta_transferencia_rota :
    validate transferenciaSinDestino =
      .ok { subcuenta_id := 1, subcuenta_destino_id := none,
            transaccion_id := none, fecha := 0, tipo := ("TRANSFERENCIA"),
            monto := 10, descripcion := none } ∧
    validate asignacionConDestino = .error .crash :=
  ⟨rfl, rfl⟩

end MovimientoSubcuenta

/-- C8 counterexample: an income request whose tipo is written in
lowercase is rejected by TransaccionCreate even though its uppercase
form INGRESO belongs to the closed set, refuting the claim that every
enum field accepts any value whose uppercase form is in its set. -/
theorem transaccion_tipo_minusculas_rechazado :
    Transaccion.validate Transaccion.ingresoMinusculas =
      .error [("tipo.invalido")] ∧
    pyUpper ("ingreso") = ("INGRESO") ∧
    ("INGRESO") ∈ Transaccion.tiposValidos :=
  ⟨rfl, rfl, by decide⟩

/-- C8 amended: case normalization is per entity, not global.  Deuda
uppercases tipo before the membership test and stores the uppercased
value, so any casing of a valid literal is accepted; Transaccion stores
tipo as given and its validator, like the Cuenta and Categoria
validators, accepts exactly the uppercase literals of its set, rejecting
any other casing. -/
theorem normalizacion_enums_por_entidad :
    (∀ (i : Deuda.CreateInput) (m : Deuda.Model),
      Deuda.validate i = .ok m →
        m.tipo = pyUpper i.tipo ∧ m.tipo ∈ Deuda.tiposValidos) ∧
    (∀ (i : Transaccion.CreateInput) (m : Transaccion.Model),
      Transaccion.validate i = .ok m →
        m.tipo = i.tipo ∧ m.tipo ∈ Transaccion.tiposValidos) ∧
    (∀ v, Transaccion.validar_tipo v = [] ↔ v ∈ Transaccion.tiposValidos) ∧
    (∀ v, Cuenta.validar_tipo_cuenta (some v) = [] ↔
      v ∈ Cuenta.tiposValidos) ∧
    (∀ v, Categoria.validar_tipo_transaccion (some v) = [] ↔
      v ∈ Categoria.tiposValidos) ∧
    (∀ v, (Deuda.validar_tipo_deuda v).toOption = some (pyUpper v) ↔
      pyUpper v ∈ Deuda.tiposValidos) := by
  refine ⟨?_, ?_, ?_, ?_, ?_, ?_⟩
  · intro i m h
    unfold Deuda.validate at h
    by_cases he : Deuda.allErrors i = []
    · rw [if_pos he] at h
      injection h with h
      subst h
      unfold Deuda.allErrors at he
      simp only [List.append_eq_nil] at he
      obtain ⟨hmem, hdT⟩ := Deuda.eTipo_nil he.1.1.1.1.1.1.1.1.1.1.1.1.1
      dsimp only
      rw [hdT, Option.getD_some]
      exact ⟨rfl, hmem⟩
    · rw [if_neg he] at h
      exact absurd h (by simp)
  · intro i m h
    unfold Transaccion.validate at h
    by_cases he : Transaccion.allErrors i = []
    · rw [if_pos he] at h
      injection h with h
      subst h
      unfold Transaccion.allErrors at he
      simp only [List.append_eq_nil] at he
      have hTipo := he.1.1.2
      by_cases hm : i.tipo ∈ Transaccion.tiposValidos
      · exact ⟨rfl, hm⟩
      · simp [Transaccion.eTipo, Transaccion.validar_tipo, hm] at hTipo
    · rw [if_neg he] at h
      exact absurd h (by simp)
  · intro v
    unfold Transaccion.validar_tipo
    constructor
    · intro h
      by_cases hm : v ∈ Transaccion.tiposValidos
      · exact hm
      · simp [hm] at h
    · intro hm
      simp [hm]
  · intro v
    unfold Cuenta.validar_tipo_cuenta
    constructor
    · intro h
      by_cases hm : v ∈ Cuenta.tiposValidos
      · exact hm
      · simp [hm] at h
    · intro hm
      simp [hm]
  · intro v
    unfold Categoria.validar_tipo_transaccion
    constructor
    · intro h
      by_cases hm : v ∈ Categoria.tiposValidos
      · exact hm
      · simp [hm] at h
    · intro hm
      simp [hm]
  · intro v
    unfold Deuda.validar_tipo_deuda
    constructor
    · intro h
      by_cases hm : pyUpper v ∈ Deuda.tiposValidos
      · exact hm
      · simp [hm, Except.toOption] at h
    · intro hm
      simp [hm, Except.toOption]

/-- Witness for C8 amended: the accepted receivable stores its tipo
uppercased, and the accepted transfer request keeps its literal tipo. -/
theorem normalizacion_enums_por_entidad_witness :
    ((("POR_COBRAR") : String) = pyUpper ("POR_COBRAR") ∧
      (("POR_COBRAR") : String) ∈ Deuda.tiposValidos) ∧
    ((("TRANSFERENCIA") : String) = ("TRANSFERENCIA") ∧
      (("TRANSFERENCIA") : String) ∈ Transaccion.tiposValidos) :=
  ⟨normalizacion_enums_por_entidad.1 Deuda.porCobrarCarlos
    { usuario_id := 1, cuenta_id := none, subcuenta_id := none,
      tipo := ("POR_COBRAR"), acreedor := none, deudor := some ("Carlos"),
      descripcion := none, saldo_inicial := -500, saldo_actual := -500,
      monto_cuota := none, frecuencia_pago := none, dia_pago := none,
      tasa_interes := none, numero_cuotas := none, cuotas_pagadas := 0,
      fecha_inicio := 0, fecha_vencimiento := none, proximo_pago := none,
      estado := ("ACTIVA"), prioridad := ("MEDIA"),
      color_hex := ("#EF4444"), icono := none } (by rfl),
   normalizacion_enums_por_entidad.2.1 Transaccion.transferenciaSinCuentas
    { usuario_id := 1, cuenta_origen_id := none, cuenta_destino_id := none,
      categoria_id := none, compromiso_recurrente_id := none, fecha := 0,
      tipo := ("TRANSFERENCIA"), monto := 10, descripcion := none,
      referencia := none } (by rfl)⟩

/-- C7 counterexample: DeudaUpdate declares saldo_actual as an updatable
field, so the partial-update path of Deuda does change a derived
balance: the update supplying tipo PRESTAMO and saldo_actual 50 is
accepted by the DeudaUpdate validators and, applied to a stored loan
with balance 100, rewrites the balance to 50. -/
theorem deuda_update_cambia_saldo_actual :
    Deuda.validateUpdate Deuda.updateSaldoActual =
      .ok Deuda.updateSaldoActual ∧
    Deuda.applyUpdate Deuda.prestamoCien Deuda.updateSaldoActual 1 =
      .ok Deuda.prestamoCienActualizado ∧
    Deuda.prestamoCien.saldo_actual = 100 ∧
    Deuda.prestamoCienActualizado.saldo_actual = 50 :=
  ⟨rfl, rfl, rfl, rfl⟩

/-- C7 amended: the partial-update path replaces exactly the supplied
fields.  For Cuenta the frame holds in full: the identifier, the owner,
the creation timestamp and the derived balance saldo_actual are
untouchable because CuentaUpdate has no such fields, omitted fields keep
their stored values, and supplied fields are replaced.  The Deuda
schema, by contrast, exposes saldo_actual to updates (see the
counterexample), so the balance-immutability part does not extend to
Deuda. -/
theorem actualizar_cuenta_frame (c : Cuenta.Row) (u u' : Cuenta.UpdateInput)
    (c' : Cuenta.Row) (now : Int)
    (hv : Cuenta.validateUpdate u = .ok u')
    (ha : Cuenta.applyUpdate c u' now = .ok c') :
    Cuenta.frameOk c u c' := by
  unfold Cuenta.validateUpdate at hv
  by_cases hval : Cuenta.allUpdateErrors u = []
  · rw [if_pos hval] at hv
    injection hv with hv
    subst hv
    unfold Cuenta.applyUpdate at ha
    by_cases hnull : Cuenta.updateNullsRequired u
    · rw [if_pos hnull] at ha
      exact absurd ha (by simp)
    · rw [if_neg hnull] at ha
      injection ha with ha
      subst ha
      refine ⟨rfl, rfl, rfl, rfl, rfl, ?_, ?_, ?_, ?_, ?_, ?_, ?_, ?_,
        ?_, ?_, ?_, ?_, ?_, ?_, ?_, ?_, ?_, ?_, ?_, ?_⟩
      all_goals intros
      all_goals rename_i h
      all_goals rw [h]
      all_goals rfl
  · rw [if_neg hval] at hv
    exact absurd hv (by simp)

/-- Witness for C7 amended: renaming the example account keeps its id,
owner, creation timestamp and balance and replaces the name. -/
theorem actualizar_cuenta_frame_witness :
    Cuenta.frameOk Store.cuentaUno Cuenta.cambioNombre Store.cuentaRenombrada :=
  actualizar_cuenta_frame Store.cuentaUno Cuenta.cambioNombre
    Cuenta.cambioNombre Store.cuentaRenombrada 5 (by rfl) (by rfl)

namespace Store

theorem deudaSubcuentaNull_cuenta_id (db : DB) (cid : Int)
    (d : Deuda.Row) :
    (deudaSubcuentaNull db cid d).cuenta_id = d.cuenta_id := by
  unfold deudaSubcuentaNull
  split <;> rfl

theorem deudaSubcuentaNull_sin_referencia (db : DB) (cid : Int)
    (d : Deuda.Row) (s : SubcuentaRow) (hs : s ∈ db.subcuentas)
    (hscid : s.cuenta_id = cid) :
    (deudaSubcuentaNull db cid d).subcuenta_id ≠ some s.subcuenta_id := by
  unfold deudaSubcuentaNull
  rcases hany : db.subcuentas.any (fun t => decide (t.cuenta_id = cid ∧
      d.subcuenta_id = some t.subcuenta_id)) with _ | _
  · simp only [Bool.false_eq_true, if_false]
    rw [List.any_eq_false] at hany
    have := hany s hs
    simp only [decide_eq_true_eq, not_and] at this
    exact this hscid
  · simp

theorem deudaSubcuentaNull_sin_cambio (db : DB) (cid : Int)
    (d : Deuda.Row)
    (hkeep : ∀ s ∈ db.subcuentas, s.cuenta_id = cid →
      d.subcuenta_id ≠ some s.subcuenta_id) :
    deudaSubcuentaNull db cid d = d := by
  unfold deudaSubcuentaNull
  have hany : db.subcuentas.any (fun s => decide (s.cuenta_id = cid ∧
      d.subcuenta_id = some s.subcuenta_id)) = false := by
    rw [List.any_eq_false]
    intro s hs
    simp only [decide_eq_true_eq, not_and]
    exact hkeep s hs
  rw [hany]
  simp

/-- C6 counterexample: account 3 of the example store is referenced by
no transaction, yet its deletion is refused, because a plan_quincenal
row references it through a foreign key declared ondelete RESTRICT; the
same happens for account 4, whose sub-account is referenced by a
movimientos_subcuentas row.  This refutes the half of the claim saying
that a Cuenta with no referencing transaction can be deleted. -/
theorem eliminar_cuenta_sin_transacciones_bloqueada :
    transaccionesQueReferencian dbEjemplo 3 = [] ∧
    eliminarCuenta dbEjemplo 3 = .error .restringida ∧
    transaccionesQueReferencian dbEjemplo 4 = [] ∧
    eliminarCuenta dbEjemplo 4 = .error .restringida :=
  ⟨rfl, rfl, rfl, rfl⟩

/-- C6 amended: deleting a Cuenta follows the delete propagation the
models declare on every foreign key.  The delete is refused, with
nothing written, while any RESTRICT edge reaches the account: a
transaccion or a plan_quincenal row referencing it, or a
movimientos_subcuentas or plan_quincenal row referencing one of the
sub-accounts the delete would cascade; the refusal is the database
foreign-key violation, which does not list the blocking transactions.
With no such reference the delete succeeds: the account and its
sub-accounts are removed (CASCADE) along with the planned expenses of
those sub-accounts, rows not referencing them survive, debts and
recurring commitments only lose their references (SET NULL), and the
remaining tables are untouched. -/
theorem eliminar_cuenta_politicas_fk (db : DB) (cid : Int)
    (hex : db.cuentas.any (fun c => decide (c.cuenta_id = cid)) = true) :
    (eliminarCuentaBloqueada db cid →
      eliminarCuenta db cid = .error .restringida ∧
      ∀ db', eliminarCuenta db cid ≠ .ok db') ∧
    (¬ eliminarCuentaBloqueada db cid →
      ∃ db', eliminarCuenta db cid = .ok db' ∧
        db'.transacciones = db.transacciones ∧
        db'.usuarios = db.usuarios ∧
        db'.categorias = db.categorias ∧
        db'.plan_quincenal = db.plan_quincenal ∧
        db'.movimientos_subcuentas = db.movimientos_subcuentas ∧
        (∀ c ∈ db'.cuentas, c.cuenta_id ≠ cid) ∧
        (∀ c ∈ db.cuentas, c.cuenta_id ≠ cid → c ∈ db'.cuentas) ∧
        (∀ s ∈ db'.subcuentas, s.cuenta_id ≠ cid) ∧
        (∀ s ∈ db.subcuentas, s.cuenta_id ≠ cid → s ∈ db'.subcuentas) ∧
        (∀ g ∈ db'.gastos_planificados, ∀ s ∈ db.subcuentas,
          s.cuenta_id = cid → g.subcuenta_id ≠ s.subcuenta_id) ∧
        (∀ g ∈ db.gastos_planificados,
          (∀ s ∈ db.subcuentas, s.cuenta_id = cid →
            g.subcuenta_id ≠ s.subcuenta_id) →
          g ∈ db'.gastos_planificados) ∧
        (∀ d ∈ db'.deudas, d.cuenta_id ≠ some cid) ∧
        (∀ d ∈ db'.deudas, ∀ s ∈ db.subcuentas,
          s.cuenta_id = cid → d.subcuenta_id ≠ some s.subcuenta_id) ∧
        (∀ d ∈ db.deudas, d.cuenta_id ≠ some cid →
          (∀ s ∈ db.subcuentas, s.cuenta_id = cid →
            d.subcuenta_id ≠ some s.subcuenta_id) →
          d ∈ db'.deudas) ∧
        (∀ k ∈ db'.compromisos, k.cuenta_destino_id ≠ some cid) ∧
        (∀ k ∈ db.compromisos, k.cuenta_destino_id ≠ some cid →
          k ∈ db'.compromisos)) := by
  constructor
  · intro hb
    have helim : eliminarCuenta db cid = .error .restringida := by
      unfold eliminarCuenta
      rw [if_pos hex, if_pos hb]
    exact ⟨helim, fun db' hok => by
      rw [helim] at hok
      exact absurd hok (by simp)⟩
  · intro hb
    have helim : eliminarCuenta db cid = .ok
        { db with
          cuentas := db.cuentas.filter
            (fun c => decide (¬ c.cuenta_id = cid)),
          subcuentas := db.subcuentas.filter
            (fun s => decide (¬ s.cuenta_id = cid)),
          gastos_planificados := db.gastos_planificados.filter
            (fun g => ! db.subcuentas.any
              (fun s => decide (s.cuenta_id = cid ∧
                g.subcuenta_id = s.subcuenta_id))),
          deudas := db.deudas.map (deudaTrasEliminar db cid),
          compromisos := db.compromisos.map
            (fun k => if k.cuenta_destino_id = some cid then
              { k with cuenta_destino_id := none } else k) } := by
      unfold eliminarCuenta
      rw [if_pos hex, if_neg hb]
    refine ⟨_, helim, rfl, rfl, rfl, rfl, rfl, ?_, ?_, ?_, ?_, ?_, ?_,
      ?_, ?_, ?_, ?_, ?_⟩
    · intro c hc
      have := List.mem_filter.mp hc
      simpa using this.2
    · intro c hc hne
      exact List.mem_filter.mpr ⟨hc, by simpa using hne⟩
    · intro s hs
      have := List.mem_filter.mp hs
      simpa using this.2
    · intro s hs hne
      exact List.mem_filter.mpr ⟨hs, by simpa using hne⟩
    · intro g hg s hs hscid heq
      have hm := (List.mem_filter.mp hg).2
      rw [Bool.not_eq_true'] at hm
      have : db.subcuentas.any (fun s => decide (s.cuenta_id = cid ∧
          g.subcuenta_id = s.subcuenta_id)) = true :=
        List.any_eq_true.mpr ⟨s, hs, by simp [hscid, heq]⟩
      rw [hm] at this
      cases this
    · intro g hg hkeep
      refine List.mem_filter.mpr ⟨hg, ?_⟩
      rw [Bool.not_eq_true']
      rw [List.any_eq_false]
      intro s hs
      simp only [decide_eq_true_eq, not_and]
      intro hscid
      exact hkeep s hs hscid
    · intro d hd
      obtain ⟨d0, _, hmap⟩ := List.mem_map.mp hd
      rw [← hmap]
      unfold deudaTrasEliminar
      rw [deudaSubcuentaNull_cuenta_id]
      by_cases h0 : d0.cuenta_id = some cid
      · rw [if_pos h0]
        simp
      · rw [if_neg h0]
        exact h0
    · intro d hd s hs hscid
      obtain ⟨d0, _, hmap⟩ := List.mem_map.mp hd
      rw [← hmap]
      unfold deudaTrasEliminar
      exact deudaSubcuentaNull_sin_referencia db cid _ s hs hscid
    · intro d hd hne hkeep
      refine List.mem_map.mpr ⟨d, hd, ?_⟩
      unfold deudaTrasEliminar
      rw [if_neg hne]
      exact deudaSubcuentaNull_sin_cambio db cid d hkeep
    · intro k hk
      obtain ⟨k0, _, hmap⟩ := List.mem_map.mp hk
      by_cases h0 : k0.cuenta_destino_id = some cid
      · rw [if_pos h0] at hmap
        rw [← hmap]
        simp
      · rw [if_neg h0] at hmap
        rw [← hmap]
        exact h0
    · intro k hk hne
      refine List.mem_map.mpr ⟨k, hk, ?_⟩
      rw [if_neg hne]

theorem categoriaAjusteStep_frame (db : DB) :
    (categoriaAjusteStep db).1.transacciones = db.transacciones ∧
    (categoriaAjusteStep db).1.nextTransaccionId = db.nextTransaccionId ∧
    (categoriaAjusteStep db).1.cuentas = db.cuentas := by
  unfold categoriaAjusteStep
  cases h : buscarCategoriaAjuste db <;> simp [h]

/-- C10: crear_cuenta commits the new account before the adjustment work
starts.  Whenever the insert phase succeeds and a positive initial
balance was requested, the committed intermediate store already holds
the new account row while no transaction references the new account yet,
and the full route only appends the adjustment afterwards: a failure of
the adjustment phase therefore leaves the account persisted with no
adjustment transaction.  The freshness hypothesis says the store does
not already contain transactions on the yet-unassigned account id. -/
theorem crear_cuenta_no_atomico (db : DB) (m : Cuenta.CreateModel)
    (now : Int) (db₁ : DB) (id : Int)
    (hfresh : ∀ t ∈ db.transacciones,
      t.cuenta_origen_id ≠ some db.nextCuentaId ∧
      t.cuenta_destino_id ≠ some db.nextCuentaId)
    (hpos : saldoInicialPositivo m.saldo_inicial)
    (hins : crearCuentaInsert db m now = .ok (db₁, id)) :
    rowOfCreate id m now ∈ db₁.cuentas ∧
    (∀ t ∈ db₁.transacciones,
      t.cuenta_origen_id ≠ some id ∧ t.cuenta_destino_id ≠ some id) ∧
    crearCuenta db m now = .ok (crearCuentaAjuste db₁ m id now, id) ∧
    (crearCuentaAjuste db₁ m id now).transacciones =
      db₁.transacciones ++
        [ajusteTxRow db₁.nextTransaccionId m.usuario_id id
          (categoriaAjusteStep db₁).2 (m.saldo_inicial.getD 0)
          m.nombre now] := by
  have hruta : crearCuenta db m now =
      (crearCuentaInsert db m now).map
        (fun p => (crearCuentaAjuste p.1 m p.2 now, p.2)) := rfl
  unfold crearCuentaInsert at hins
  by_cases hu : m.usuario_id ∈ db.usuarios
  · rw [if_pos hu] at hins
    by_cases hdup : db.cuentas.any
        (fun c => decide (c.usuario_id = m.usuario_id ∧
          c.nombre = m.nombre)) = true
    · rw [if_pos hdup] at hins
      exact absurd hins (by simp)
    · rw [if_neg hdup] at hins
      injection hins with hins
      rw [Prod.mk.injEq] at hins
      obtain ⟨hdb, hid⟩ := hins
      subst hdb
      subst hid
      refine ⟨by simp, ?_, ?_, ?_⟩
      · intro t ht
        exact hfresh t ht
      · rw [hruta]
        unfold crearCuentaInsert
        rw [if_pos hu, if_neg hdup]
        rfl
      · unfold crearCuentaAjuste
        rw [if_pos hpos]
        obtain ⟨h1, h2, _⟩ := categoriaAjusteStep_frame
          { db with
            cuentas := db.cuentas ++ [rowOfCreate db.nextCuentaId m now],
            nextCuentaId := db.nextCuentaId + 1 }
        dsimp only
        rw [h1, h2]
  · rw [if_neg hu] at hins
    exact absurd hins (by simp)

theorem categoriaAjusteStep_hit {db : DB} {c : CategoriaRow}
    (hc : buscarCategoriaAjuste db = some c) :
    categoriaAjusteStep db = (db, c.categoria_id) := by
  unfold categoriaAjusteStep
  rw [hc]

theorem categoriaAjusteStep_miss {db : DB}
    (hc : buscarCategoriaAjuste db = none) :
    categoriaAjusteStep db =
      ({ db with
         categorias := db.categorias ++
           [categoriaAjusteRow db.nextCategoriaId],
         nextCategoriaId := db.nextCategoriaId + 1 },
       db.nextCategoriaId) := by
  unfold categoriaAjusteStep
  rw [hc]

/-- C5: effects of crear_cuenta.  The insert phase appends exactly the
new account row, touches no transaction and no categoria, and does not
depend on saldo_inicial at all (the requested balance is not persisted on
the account, whose stored balance starts at 0 inside rowOfCreate).  When
the balance is 0, null or absent (absent defaults to 0) no adjustment is
written and the route ends on the insert-phase store.  When it is
positive, the route appends exactly one adjustment transaction of tipo
AJUSTE over that amount crediting the new account, obtains its categoria
by lookup-or-create on the natural key (reusing an existing row, or
inserting the shared row once), and afterwards the natural-key lookup
finds precisely the categoria that was used, so a repeated creation
reuses it. -/
theorem crear_cuenta_ajuste_inicial (db : DB) (m : Cuenta.CreateModel)
    (now : Int) (db₁ : DB) (id : Int)
    (hins : crearCuentaInsert db m now = .ok (db₁, id)) :
    db₁.cuentas = db.cuentas ++ [rowOfCreate id m now] ∧
    db₁.transacciones = db.transacciones ∧
    db₁.categorias = db.categorias ∧
    (∀ x, crearCuentaInsert db { m with saldo_inicial := x } now =
      .ok (db₁, id)) ∧
    (¬ saldoInicialPositivo m.saldo_inicial →
      crearCuenta db m now = .ok (db₁, id)) ∧
    (∀ si, m.saldo_inicial = some si → 0 < si →
      crearCuenta db m now = .ok (crearCuentaAjuste db₁ m id now, id) ∧
      (crearCuentaAjuste db₁ m id now).transacciones =
        db₁.transacciones ++
          [ajusteTxRow db₁.nextTransaccionId m.usuario_id id
            (categoriaAjusteStep db₁).2 si m.nombre now] ∧
      (crearCuentaAjuste db₁ m id now).cuentas = db₁.cuentas ∧
      (∀ c, buscarCategoriaAjuste db₁ = some c →
        (crearCuentaAjuste db₁ m id now).categorias = db₁.categorias ∧
        (categoriaAjusteStep db₁).2 = c.categoria_id) ∧
      (buscarCategoriaAjuste db₁ = none →
        (crearCuentaAjuste db₁ m id now).categorias =
          db₁.categorias ++ [categoriaAjusteRow db₁.nextCategoriaId] ∧
        (categoriaAjusteStep db₁).2 = db₁.nextCategoriaId) ∧
      (∃ c, buscarCategoriaAjuste (crearCuentaAjuste db₁ m id now) =
          some c ∧
        c.categoria_id = (categoriaAjusteStep db₁).2)) := by
  unfold crearCuentaInsert at hins
  by_cases hu : m.usuario_id ∈ db.usuarios
  · rw [if_pos hu] at hins
    by_cases hdup : db.cuentas.any
        (fun c => decide (c.usuario_id = m.usuario_id ∧
          c.nombre = m.nombre)) = true
    · rw [if_pos hdup] at hins
      exact absurd hins (by simp)
    · rw [if_neg hdup] at hins
      injection hins with hins
      rw [Prod.mk.injEq] at hins
      obtain ⟨hdb, hid⟩ := hins
      subst hdb
      subst hid
      have hck : ∀ mx : Cuenta.CreateModel, mx.usuario_id = m.usuario_id →
          mx.nombre = m.nombre →
          crearCuentaInsert db mx now =
            .ok ({ db with
                   cuentas := db.cuentas ++
                     [rowOfCreate db.nextCuentaId mx now],
                   nextCuentaId := db.nextCuentaId + 1 },
                 db.nextCuentaId) := by
        intro mx hxu hxn
        unfold crearCuentaInsert
        rw [hxu, hxn, if_pos hu, if_neg hdup]
      have hruta : crearCuenta db m now =
          .ok (crearCuentaAjuste
            { db with
              cuentas := db.cuentas ++ [rowOfCreate db.nextCuentaId m now],
              nextCuentaId := db.nextCuentaId + 1 }
            m db.nextCuentaId now, db.nextCuentaId) := by
        unfold crearCuenta
        rw [hck m rfl rfl]
        rfl
      refine ⟨rfl, rfl, rfl, ?_, ?_, ?_⟩
      · intro x
        exact hck { m with saldo_inicial := x } rfl rfl
      · intro hn
        rw [hruta]
        unfold crearCuentaAjuste
        rw [if_neg hn]
      · intro si hsi hlt
        have hp : saldoInicialPositivo m.saldo_inicial := by
          rw [hsi]
          exact ⟨ne_of_gt hlt, hlt⟩
        set db₁ : DB :=
          { db with
            cuentas := db.cuentas ++ [rowOfCreate db.nextCuentaId m now],
            nextCuentaId := db.nextCuentaId + 1 } with hdb₁
        obtain ⟨hf1, hf2, hf3⟩ := categoriaAjusteStep_frame db₁
        have hajuste : crearCuentaAjuste db₁ m db.nextCuentaId now =
            { (categoriaAjusteStep db₁).1 with
              transacciones := (categoriaAjusteStep db₁).1.transacciones ++
                [ajusteTxRow (categoriaAjusteStep db₁).1.nextTransaccionId
                  m.usuario_id db.nextCuentaId (categoriaAjusteStep db₁).2
                  (m.saldo_inicial.getD 0) m.nombre now],
              nextTransaccionId :=
                (categoriaAjusteStep db₁).1.nextTransaccionId + 1 } := by
          unfold crearCuentaAjuste
          rw [if_pos hp]
        refine ⟨hruta, ?_, ?_, ?_, ?_, ?_⟩
        · rw [hajuste]
          dsimp only
          rw [hf1, hf2, hsi]
          rfl
        · rw [hajuste]
          dsimp only
          exact hf3
        · intro c hc
          rw [hajuste, categoriaAjusteStep_hit hc]
          exact ⟨rfl, rfl⟩
        · intro hc
          rw [hajuste, categoriaAjusteStep_miss hc]
          exact ⟨rfl, rfl⟩
        · rcases hc : buscarCategoriaAjuste db₁ with _ | c
          · refine ⟨categoriaAjusteRow db₁.nextCategoriaId, ?_, ?_⟩
            · rw [hajuste]
              unfold buscarCategoriaAjuste
              dsimp only
              rw [categoriaAjusteStep_miss hc]
              dsimp only
              rw [List.find?_append]
              have hnone : db₁.categorias.find?
                  (fun c => decide (c.nombre = ("Ajuste Inicial") ∧
                    c.tipo_transaccion = ("AJUSTE"))) = none := hc
              rw [hnone]
              simp [categoriaAjusteRow]
            · rw [categoriaAjusteStep_miss hc]
              rfl
          · refine ⟨c, ?_, ?_⟩
            · rw [hajuste]
              unfold buscarCategoriaAjuste
              dsimp only
              rw [categoriaAjusteStep_hit hc]
              exact hc
            · rw [categoriaAjusteStep_hit hc]
  · rw [if_neg hu] at hins
    exact absurd hins (by simp)

/-- Witness for C5: creating the cash account with initial balance 100
on the one-user store inserts the account, then appends exactly one
adjustment transaction of 100, and the natural-key lookup afterwards
yields the categoria that was used. -/
theorem crear_cuenta_ajuste_inicial_witness :
    dbTrasInsert.cuentas =
      soloUsuario.cuentas ++ [rowOfCreate 1 efectivoConSaldo 0] ∧
    dbTrasInsert.transacciones = soloUsuario.transacciones ∧
    crearCuenta soloUsuario efectivoConSaldo 0 =
      .ok (crearCuentaAjuste dbTrasInsert efectivoConSaldo 1 0, 1) ∧
    (crearCuentaAjuste dbTrasInsert efectivoConSaldo 1 0).transacciones =
      dbTrasInsert.transacciones ++
        [ajusteTxRow dbTrasInsert.nextTransaccionId
          efectivoConSaldo.usuario_id 1
          (categoriaAjusteStep dbTrasInsert).2 100 efectivoConSaldo.nombre
          0] ∧
    (∃ c, buscarCategoriaAjuste
        (crearCuentaAjuste dbTrasInsert efectivoConSaldo 1 0) = some c ∧
      c.categoria_id = (categoriaAjusteStep dbTrasInsert).2) := by
  have H := crear_cuenta_ajuste_inicial soloUsuario efectivoConSaldo 0
    dbTrasInsert 1 (by rfl)
  have H6 := H.2.2.2.2.2 100 rfl (by norm_num)
  exact ⟨H.1, H.2.1, H6.1, H6.2.1, H6.2.2.2.2.2⟩

/-- Witness for C6 amended: in the example store, deleting account 1 is
refused (its transaction blocks it), and deleting account 2 succeeds
with its sub-account gone and the debt reference cleared. -/
theorem eliminar_cuenta_politicas_fk_witness :
    eliminarCuenta dbEjemplo 1 = .error .restringida ∧
    (∃ db', eliminarCuenta dbEjemplo 2 = .ok db' ∧
      (∀ s ∈ db'.subcuentas, s.cuenta_id ≠ 2) ∧
      (∀ d ∈ db'.deudas, d.cuenta_id ≠ some 2)) := by
  refine ⟨((eliminar_cuenta_politicas_fk dbEjemplo 1 (by rfl)).1
    (by decide)).1, ?_⟩
  obtain ⟨db', hok, _, _, _, _, _, _, _, hsno, _, _, _, hdno, _⟩ :=
    (eliminar_cuenta_politicas_fk dbEjemplo 2 (by rfl)).2 (by decide)
  exact ⟨db', hok, hsno, hdno⟩

/-- Witness for C10: on the one-user store, after the insert phase of
the cash account the account row is committed, nothing references it,
and only then does the route append the adjustment. -/
theorem crear_cuenta_no_atomico_witness :
    rowOfCreate 1 efectivoConSaldo 0 ∈ dbTrasInsert.cuentas ∧
    (∀ t ∈ dbTrasInsert.transacciones,
      t.cuenta_origen_id ≠ some 1 ∧ t.cuenta_destino_id ≠ some 1) ∧
    crearCuenta soloUsuario efectivoConSaldo 0 =
      .ok (crearCuentaAjuste dbTrasInsert efectivoConSaldo 1 0, 1) ∧
    (crearCuentaAjuste dbTrasInsert efectivoConSaldo 1 0).transacciones =
      dbTrasInsert.transacciones ++
        [ajusteTxRow dbTrasInsert.nextTransaccionId
          efectivoConSaldo.usuario_id 1 (categoriaAjusteStep dbTrasInsert).2
          (efectivoConSaldo.saldo_inicial.getD 0) efectivoConSaldo.nombre
          0] :=
  crear_cuenta_no_atomico soloUsuario efectivoConSaldo 0 dbTrasInsert 1
    (by simp [soloUsuario]) ⟨by norm_num, by norm_num⟩ (by rfl)

end Store

end Chenchen
